import Mathlib

/-!
Verification development for the vulDocker pipeline.

The definitions below are a shallow embedding of the Python sources:

* `common/sid.py` — `compute_sid` (Scenario ID derivation),
* `orchestrator/plan.py` — `_default_components`, `build_plan`,
* `common/schema/requirement.py` — `normalize_requirement` and helpers,
* `orchestrator/loop_controller.py` — `LoopController`,
* `rag/memories/__init__.py` — the Reflexion store append,
* `orchestrator/pack.py` — `assert_review_passed`,
* `agents/generator/synthesis.py` — `_score_candidate`, winner selection,
  `_parse_manifest`, `_fallback_manifest`,
* `evals/assertions.py` — the assertion DSL,
* `evals/poc_verifier/llm_assisted.py` — the post-parse verdict,
* `evals/poc_verifier/main.py` — `_overall_pass`.

Python dictionaries are modelled as association lists of `PyVal` values,
machine floats that only ever carry small decimal fractions are modelled as
rationals, and Python exceptions are modelled with `Except`.
-/

namespace VulDocker

/-- Model of a Python value as it appears in the requirement/plan/manifest
JSON-like dictionaries: `None`, booleans, integers, strings, lists and
(insertion-ordered) string-keyed dictionaries. -/
inductive PyVal where
  | none : PyVal
  | bool (b : Bool) : PyVal
  | int (n : Int) : PyVal
  | float (q : ℚ) : PyVal
  | str (s : String) : PyVal
  | list (xs : List PyVal) : PyVal
  | dict (xs : List (String × PyVal)) : PyVal
deriving Repr

mutual

/-- Structural equality test for `PyVal`. -/
def PyVal.beq : PyVal → PyVal → Bool
  | .none, .none => true
  | .bool a, .bool b => a == b
  | .int a, .int b => a == b
  | .float a, .float b => a == b
  | .str a, .str b => a == b
  | .list xs, .list ys => PyVal.beqList xs ys
  | .dict xs, .dict ys => PyVal.beqDict xs ys
  | _, _ => false

/-- Elementwise equality of `PyVal` lists. -/
def PyVal.beqList : List PyVal → List PyVal → Bool
  | [], [] => true
  | x :: xs, y :: ys => PyVal.beq x y && PyVal.beqList xs ys
  | _, _ => false

/-- Elementwise equality of `PyVal` key/value pair lists. -/
def PyVal.beqDict : List (String × PyVal) → List (String × PyVal) → Bool
  | [], [] => true
  | (k, v) :: xs, (l, w) :: ys => k == l && PyVal.beq v w && PyVal.beqDict xs ys
  | _, _ => false

end

mutual

theorem PyVal.beq_iff : ∀ a b : PyVal, PyVal.beq a b = true ↔ a = b
  | .none, .none => by simp [PyVal.beq]
  | .bool a, .bool b => by simp [PyVal.beq]
  | .int a, .int b => by simp [PyVal.beq]
  | .float a, .float b => by simp [PyVal.beq]
  | .str a, .str b => by simp [PyVal.beq]
  | .list xs, .list ys => by
      simp only [PyVal.beq, PyVal.beqList_iff xs ys, PyVal.list.injEq]
  | .dict xs, .dict ys => by
      simp only [PyVal.beq, PyVal.beqDict_iff xs ys, PyVal.dict.injEq]
  | .none, .bool _ | .none, .int _ | .none, .float _ | .none, .str _ | .none, .list _
  | .none, .dict _
  | .bool _, .none | .bool _, .int _ | .bool _, .float _ | .bool _, .str _ | .bool _, .list _
  | .bool _, .dict _
  | .int _, .none | .int _, .bool _ | .int _, .float _ | .int _, .str _ | .int _, .list _
  | .int _, .dict _
  | .float _, .none | .float _, .bool _ | .float _, .int _ | .float _, .str _
  | .float _, .list _ | .float _, .dict _
  | .str _, .none | .str _, .bool _ | .str _, .int _ | .str _, .float _ | .str _, .list _
  | .str _, .dict _
  | .list _, .none | .list _, .bool _ | .list _, .int _ | .list _, .float _ | .list _, .str _
  | .list _, .dict _
  | .dict _, .none | .dict _, .bool _ | .dict _, .int _ | .dict _, .float _ | .dict _, .str _
  | .dict _, .list _ => by
      simp [PyVal.beq]

theorem PyVal.beqList_iff : ∀ xs ys : List PyVal, PyVal.beqList xs ys = true ↔ xs = ys
  | [], [] => by simp [PyVal.beqList]
  | x :: xs, y :: ys => by
      simp [PyVal.beqList, Bool.and_eq_true, PyVal.beq_iff x y, PyVal.beqList_iff xs ys]
  | [], _ :: _ => by simp [PyVal.beqList]
  | _ :: _, [] => by simp [PyVal.beqList]

theorem PyVal.beqDict_iff :
    ∀ xs ys : List (String × PyVal), PyVal.beqDict xs ys = true ↔ xs = ys
  | [], [] => by simp [PyVal.beqDict]
  | (k, v) :: xs, (l, w) :: ys => by
      simp [PyVal.beqDict, Bool.and_eq_true, PyVal.beq_iff v w, PyVal.beqDict_iff xs ys,
        and_assoc]
  | [], _ :: _ => by simp [PyVal.beqDict]
  | _ :: _, [] => by simp [PyVal.beqDict]

end

instance : DecidableEq PyVal := fun a b =>
  decidable_of_iff (PyVal.beq a b = true) (PyVal.beq_iff a b)

/-- A Python dictionary with string keys: an insertion-ordered association
list.  Lookups return the first binding (keys are unique in every dictionary
the sources build). -/
abbrev PyDict := List (String × PyVal)

/-- Model of `d.get(key)` / `d[key]` presence: the first binding of `key`. -/
def PyDict.get : PyDict → String → Option PyVal
  | [], _ => Option.none
  | (k, v) :: rest, key => if k = key then some v else PyDict.get rest key

/-- Model of `d.get(key, default)`. -/
def PyDict.getD (d : PyDict) (key : String) (default : PyVal) : PyVal :=
  (d.get key).getD default

/-- Model of `d[key] = v` on a Python dict: replace the first binding in
place, or append a fresh binding at the end. -/
def PyDict.set : PyDict → String → PyVal → PyDict
  | [], key, v => [(key, v)]
  | (k, w) :: rest, key, v =>
      if k = key then (k, v) :: rest else (k, w) :: PyDict.set rest key v

/-- Model of `del d[key]` (all bindings of the key removed). -/
def PyDict.erase (d : PyDict) (key : String) : PyDict :=
  d.filter (fun kv => kv.1 ≠ key)

/-- Python truthiness (`bool(value)`) for the modelled values. -/
def PyVal.truthy : PyVal → Bool
  | .none => false
  | .bool b => b
  | .int n => n ≠ 0
  | .float q => q ≠ 0
  | .str s => s ≠ ""
  | .list xs => !xs.isEmpty
  | .dict xs => !xs.isEmpty

/-- Whether the value is a Python dict (`isinstance(value, dict)`). -/
def PyVal.isDict : PyVal → Bool
  | .dict _ => true
  | _ => false

/-- Whether the value is a Python list (`isinstance(value, list)`). -/
def PyVal.isList : PyVal → Bool
  | .list _ => true
  | _ => false

/-- Whether the value is a Python string (`isinstance(value, str)`). -/
def PyVal.isStr : PyVal → Bool
  | .str _ => true
  | _ => false

/-- Model of Python `str(value)` for the value shapes the pipeline feeds it
(strings pass through, integers print in decimal, booleans capitalise, and
`None` prints as `None`). -/
def PyVal.pyStr : PyVal → String
  | .none => "None"
  | .bool b => if b then "True" else "False"
  | .int n => toString n
  | .float q => toString q
  | .str s => s
  | .list _ => "<list>"
  | .dict _ => "<dict>"

/-! ## JSON serialisation (`json.dumps(..., sort_keys=True, separators=(",", ":"))`)

`compute_sid` serialises a flat `Dict[str, str]` payload, so a flat
serialiser suffices.  It mirrors CPython's default `ensure_ascii=True`
encoder: printable ASCII passes through, the short escapes are used for the
usual control characters, and everything else becomes a `\uXXXX` escape
(with surrogate pairs above the BMP). -/

/-- The lowercase hex digit for a nibble. -/
def hexChar (n : Nat) : Char :=
  "0123456789abcdef".data.getD n '0'

/-- Four lowercase hex digits, most significant first. -/
def hex4 (n : Nat) : List Char :=
  [hexChar (n / 4096 % 16), hexChar (n / 256 % 16), hexChar (n / 16 % 16), hexChar (n % 16)]

/-- CPython's `json` escape for one character (default `ensure_ascii=True`). -/
def jsonEscapeChar (c : Char) : List Char :=
  if c = '"' then ['\\', '"']
  else if c = '\\' then ['\\', '\\']
  else if c = '\n' then ['\\', 'n']
  else if c = '\t' then ['\\', 't']
  else if c = '\r' then ['\\', 'r']
  else if c.toNat = 8 then ['\\', 'b']
  else if c.toNat = 12 then ['\\', 'f']
  else if 32 ≤ c.toNat ∧ c.toNat ≤ 126 then [c]
  else if c.toNat < 65536 then '\\' :: 'u' :: hex4 c.toNat
  else
    let n := c.toNat - 65536
    ('\\' :: 'u' :: hex4 (55296 + n / 1024)) ++ ('\\' :: 'u' :: hex4 (56320 + n % 1024))

/-- A JSON string literal for `s`. -/
def jsonQuote (s : String) : String :=
  "\"" ++ String.mk (s.data.flatMap jsonEscapeChar) ++ "\""

/-- Insert a pair into a key-sorted pair list (Python's code-point string
order; ties keep insertion order, matching `sorted`'s stability). -/
def insertPair (p : String × String) : List (String × String) → List (String × String)
  | [] => [p]
  | q :: rest => if p.1 < q.1 then p :: q :: rest else q :: insertPair p rest

/-- Sort a pair list by key, as `sort_keys=True` does. -/
def sortPairs : List (String × String) → List (String × String)
  | [] => []
  | p :: rest => insertPair p (sortPairs rest)

/-- `json.dumps(d, sort_keys=True, separators=(",", ":"))` for a flat
string-valued dict `d`. -/
def jsonDumpsFlat (pairs : List (String × String)) : String :=
  "\x7b" ++ String.intercalate ","
    ((sortPairs pairs).map (fun kv => jsonQuote kv.1 ++ ":" ++ jsonQuote kv.2)) ++ "\x7d"

/-- UTF-8 bytes of one character, as `str.encode("utf-8")` produces. -/
def utf8Char (c : Char) : List Nat :=
  let n := c.toNat
  if n < 128 then [n]
  else if n < 2048 then [192 ||| (n >>> 6), 128 ||| (n &&& 63)]
  else if n < 65536 then
    [224 ||| (n >>> 12), 128 ||| ((n >>> 6) &&& 63), 128 ||| (n &&& 63)]
  else
    [240 ||| (n >>> 18), 128 ||| ((n >>> 12) &&& 63), 128 ||| ((n >>> 6) &&& 63),
      128 ||| (n &&& 63)]

/-- `s.encode("utf-8")` as a byte list. -/
def utf8Bytes (s : String) : List Nat :=
  s.data.flatMap utf8Char

/-! ## SHA-256 (`hashlib.sha256`)

A byte-list implementation of FIPS 180-4 SHA-256, used by `compute_sid`,
`normalize_requirement` (the multi-vuln digest) and `_prompt_hash`.  Words
are `Nat` values kept below `2^32` explicitly. -/

/-- Truncate to a 32-bit word. -/
def w32 (n : Nat) : Nat := n % 4294967296

/-- Right-rotation of a 32-bit word. -/
def rotr (b x : Nat) : Nat := w32 ((x >>> b) ||| (x <<< (32 - b)))

/-- The eight working variables / chaining values of SHA-256. -/
structure Sha256State where
  a : Nat
  b : Nat
  c : Nat
  d : Nat
  e : Nat
  f : Nat
  g : Nat
  h : Nat
deriving Repr, DecidableEq

/-- The SHA-256 initial hash value. -/
def sha256InitH : Sha256State :=
  ⟨1779033703, 3144134277, 1013904242, 2773480762,
   1359893119, 2600822924, 528734635, 1541459225⟩

/-- The 64 SHA-256 round constants. -/
def sha256K : List Nat :=
  [1116352408, 1899447441, 3049323471, 3921009573, 961987163, 1508970993,
   2453635748, 2870763221, 3624381080, 310598401, 607225278, 1426881987,
   1925078388, 2162078206, 2614888103, 3248222580, 3835390401, 4022224774,
   264347078, 604807628, 770255983, 1249150122, 1555081692, 1996064986,
   2554220882, 2821834349, 2952996808, 3210313671, 3336571891, 3584528711,
   113926993, 338241895, 666307205, 773529912, 1294757372, 1396182291,
   1695183700, 1986661051, 2177026350, 2456956037, 2730485921, 2820302411,
   3259730800, 3345764771, 3516065817, 3600352804, 4094571909, 275423344,
   430227734, 506948616, 659060556, 883997877, 958139571, 1322822218,
   1537002063, 1747873779, 1955562222, 2024104815, 2227730452, 2361852424,
   2428436474, 2756734187, 3204031479, 3329325298]

/-- SHA-256 message padding: append `0x80`, zero bytes and the 64-bit
big-endian bit length, reaching a multiple of 64 bytes. -/
def sha256Pad (msg : List Nat) : List Nat :=
  let len := msg.length
  let bitLen := len * 8
  let zeros := (119 - len % 64) % 64
  msg ++ [128] ++ List.replicate zeros 0 ++
    [bitLen >>> 56 % 256, bitLen >>> 48 % 256, bitLen >>> 40 % 256, bitLen >>> 32 % 256,
     bitLen >>> 24 % 256, bitLen >>> 16 % 256, bitLen >>> 8 % 256, bitLen % 256]

/-- Split a padded message into 64-byte blocks. -/
def sha256Blocks (l : List Nat) : List (List Nat) :=
  if h : l = [] then [] else
    have : l.length - 64 < l.length := by
      have hl : 0 < l.length := List.length_pos.mpr h
      omega
    l.take 64 :: sha256Blocks (l.drop 64)
termination_by l.length
decreasing_by simpa [List.length_drop] using this

/-- Big-endian 32-bit words of a block. -/
def sha256Words : List Nat → List Nat
  | b0 :: b1 :: b2 :: b3 :: rest =>
      (b0 * 16777216 + b1 * 65536 + b2 * 256 + b3) :: sha256Words rest
  | _ => []

/-- Extend 16 message words to the 64-entry message schedule. -/
def sha256Schedule (block : List Nat) : Array Nat :=
  (List.range 48).foldl
    (fun w i =>
      let x15 := w.getD (i + 1) 0
      let x2 := w.getD (i + 14) 0
      let s0 := rotr 7 x15 ^^^ rotr 18 x15 ^^^ (x15 >>> 3)
      let s1 := rotr 17 x2 ^^^ rotr 19 x2 ^^^ (x2 >>> 10)
      w.push (w32 (w.getD i 0 + s0 + w.getD (i + 9) 0 + s1)))
    (sha256Words block).toArray

/-- One SHA-256 round. -/
def sha256Round (st : Sha256State) (k wt : Nat) : Sha256State :=
  let s1 := rotr 6 st.e ^^^ rotr 11 st.e ^^^ rotr 25 st.e
  let ch := (st.e &&& st.f) ^^^ ((st.e ^^^ 4294967295) &&& st.g)
  let temp1 := w32 (st.h + s1 + ch + k + wt)
  let s0 := rotr 2 st.a ^^^ rotr 13 st.a ^^^ rotr 22 st.a
  let maj := (st.a &&& st.b) ^^^ (st.a &&& st.c) ^^^ (st.b &&& st.c)
  let temp2 := w32 (s0 + maj)
  ⟨w32 (temp1 + temp2), st.a, st.b, st.c, w32 (st.d + temp1), st.e, st.f, st.g⟩

/-- Compress one 64-byte block into the chaining state. -/
def sha256Compress (st : Sha256State) (block : List Nat) : Sha256State :=
  let w := sha256Schedule block
  let r := (sha256K.zip w.toList).foldl (fun s kw => sha256Round s kw.1 kw.2) st
  ⟨w32 (st.a + r.a), w32 (st.b + r.b), w32 (st.c + r.c), w32 (st.d + r.d),
   w32 (st.e + r.e), w32 (st.f + r.f), w32 (st.g + r.g), w32 (st.h + r.h)⟩

/-- Big-endian bytes of one 32-bit word. -/
def wordBytes (x : Nat) : List Nat :=
  [x >>> 24 % 256, x >>> 16 % 256, x >>> 8 % 256, x % 256]

/-- The 32 digest bytes of a final state. -/
def sha256StateBytes (st : Sha256State) : List Nat :=
  wordBytes st.a ++ wordBytes st.b ++ wordBytes st.c ++ wordBytes st.d ++
    wordBytes st.e ++ wordBytes st.f ++ wordBytes st.g ++ wordBytes st.h

/-- `hashlib.sha256(msg).digest()` as a 32-byte list. -/
def sha256 (msg : List Nat) : List Nat :=
  sha256StateBytes ((sha256Blocks (sha256Pad msg)).foldl sha256Compress sha256InitH)

/-- The two lowercase hex characters of one byte. -/
def byteHexChars (b : Nat) : List Char :=
  [hexChar (b / 16 % 16), hexChar (b % 16)]

/-- Lowercase hex characters of a byte list (`.hexdigest()` character data). -/
def bytesToHex (bs : List Nat) : List Char :=
  bs.flatMap byteHexChars

/-- `hashlib.sha256(msg).hexdigest()`. -/
def sha256Hex (msg : List Nat) : String :=
  String.mk (bytesToHex (sha256 msg))

/-! ## Scenario ID derivation (`common/sid.py`) -/

/-- `SID_FIELDS` from `common/sid.py`. -/
def SID_FIELDS : List String :=
  ["model_version", "prompt_hash", "seed", "retriever_commit", "corpus_snapshot",
   "pattern_id", "deps_digest", "base_image_digest"]

/-- `OPTIONAL_FIELDS` from `common/sid.py`. -/
def OPTIONAL_FIELDS : List String := ["vuln_ids_digest"]

/-- `components.get(key)` on the `Dict[str, str]` component mapping (first
binding wins; the sources never build duplicate keys). -/
def compGet : List (String × String) → String → Option String
  | [], _ => Option.none
  | (k, v) :: rest, key => if k = key then some v else compGet rest key

/-- `components.get(key, default)`. -/
def compGetD (c : List (String × String)) (key default : String) : String :=
  (compGet c key).getD default

/-- `components[key] = v` (replace the first binding or append). -/
def compSet : List (String × String) → String → String → List (String × String)
  | [], key, v => [(key, v)]
  | (k, w) :: rest, key, v =>
      if k = key then (k, v) :: rest else (k, w) :: compSet rest key v

/-- Remove every binding of `key` (the component mapping with the field
omitted). -/
def compErase : List (String × String) → String → List (String × String)
  | [], _ => []
  | (k, v) :: rest, key =>
      if k = key then compErase rest key else (k, v) :: compErase rest key

/-- The payload dict `compute_sid` serialises: every `SID_FIELDS` entry with
default `""`, then each `OPTIONAL_FIELDS` entry whose value is truthy. -/
def sidPayload (components : List (String × String)) : List (String × String) :=
  SID_FIELDS.map (fun key => (key, compGetD components key "")) ++
    OPTIONAL_FIELDS.filterMap (fun field =>
      match compGet components field with
      | some value => if value ≠ "" then some (field, value) else Option.none
      | Option.none => Option.none)

/-- `compute_sid` from `common/sid.py`: prefix `sid-` to the first 12 hex
characters of the SHA-256 of the sorted compact JSON serialisation of the
payload. -/
def compute_sid (components : List (String × String)) : String :=
  "sid-" ++ String.mk ((bytesToHex (sha256 (utf8Bytes (jsonDumpsFlat (sidPayload components))))).take 12)

/-! ## Plan-stage component defaults (`orchestrator/plan.py`) -/

/-- `_prompt_hash()` from `orchestrator/plan.py`. -/
def promptHashConst : String := sha256Hex (utf8Bytes "generator-prompt-v1")

/-- A requirement field read into the `Dict[str, str]` component mapping.
The source annotates components as strings; a non-string YAML value is
modelled through `str()`. -/
def reqComp (requirement : PyDict) (key default : String) : String :=
  match requirement.get key with
  | some v => v.pyStr
  | Option.none => default

/-- `_default_components` from `orchestrator/plan.py`. -/
def _default_components (requirement : PyDict) : List (String × String) :=
  [("model_version", reqComp requirement "model_version" "gpt-4.1-mini"),
   ("prompt_hash", promptHashConst),
   ("seed", (requirement.getD "seed" (.int 0)).pyStr),
   ("retriever_commit", reqComp requirement "retriever_commit" "unknown"),
   ("corpus_snapshot", reqComp requirement "corpus_snapshot" "mvp-sample"),
   ("pattern_id", reqComp requirement "pattern_id" "unknown"),
   ("deps_digest", reqComp requirement "deps_digest" "unknown"),
   ("base_image_digest", reqComp requirement "base_image_digest" "unknown")]

/-- The requirement keys `_default_components` reads (its `prompt_hash` is a
constant). -/
def DEFAULT_COMPONENT_KEYS : List String :=
  ["model_version", "seed", "retriever_commit", "corpus_snapshot", "pattern_id",
   "deps_digest", "base_image_digest"]

/-! ## The SID algorithm as the spec words it (§4.1) -/

/-- The payload as §4.1 states it: the eight fields in their declared order,
each missing one defaulted to the sentinel `""`, with `vuln_ids_digest`
appended only when a non-sentinel value is present (the multi-vuln case). -/
def sidSpecPayload (components : List (String × String)) : List (String × String) :=
  let base :=
    [("model_version", compGetD components "model_version" ""),
     ("prompt_hash", compGetD components "prompt_hash" ""),
     ("seed", compGetD components "seed" ""),
     ("retriever_commit", compGetD components "retriever_commit" ""),
     ("corpus_snapshot", compGetD components "corpus_snapshot" ""),
     ("pattern_id", compGetD components "pattern_id" ""),
     ("deps_digest", compGetD components "deps_digest" ""),
     ("base_image_digest", compGetD components "base_image_digest" "")]
  match compGet components "vuln_ids_digest" with
  | some value => if value = "" then base else base ++ [("vuln_ids_digest", value)]
  | Option.none => base

/-- §4.1 of the spec, end to end: serialise the payload as sorted compact
JSON, hash with SHA-256, take the first 12 hex characters, prefix `sid-`. -/
def sidSpec (components : List (String × String)) : String :=
  "sid-" ++
    String.mk ((bytesToHex (sha256 (utf8Bytes (jsonDumpsFlat (sidSpecPayload components))))).take 12)

theorem sidPayload_eq_spec (c : List (String × String)) :
    sidPayload c = sidSpecPayload c := by
  simp only [sidPayload, sidSpecPayload, SID_FIELDS, OPTIONAL_FIELDS, List.map_cons,
    List.map_nil, List.filterMap_cons, List.filterMap_nil, compGetD]
  cases h : compGet c "vuln_ids_digest" with
  | none => simp
  | some v =>
      by_cases hv : v = "" <;> simp [hv]

theorem compGet_compSet_self (c : List (String × String)) (k v : String) :
    compGet (compSet c k v) k = some v := by
  induction c with
  | nil => simp [compSet, compGet]
  | cons p rest ih =>
      obtain ⟨k₁, v₁⟩ := p
      by_cases h : k₁ = k
      · simp [compSet, h, compGet]
      · simp [compSet, h, compGet, ih]

theorem compGet_compSet_ne (c : List (String × String)) (k v key : String)
    (hne : key ≠ k) : compGet (compSet c k v) key = compGet c key := by
  induction c with
  | nil => simp [compSet, compGet, Ne.symm hne]
  | cons p rest ih =>
      obtain ⟨k₁, v₁⟩ := p
      by_cases h : k₁ = k
      · subst h
        simp [compSet, compGet, Ne.symm hne]
      · simp [compSet, h, compGet, ih]

theorem compGet_compErase_self (c : List (String × String)) (k : String) :
    compGet (compErase c k) k = Option.none := by
  induction c with
  | nil => simp [compErase, compGet]
  | cons p rest ih =>
      obtain ⟨k₁, v₁⟩ := p
      by_cases h : k₁ = k
      · simp [compErase, h, ih]
      · simp [compErase, compGet, h, ih]

theorem compGet_compErase_ne (c : List (String × String)) (k key : String)
    (hne : key ≠ k) : compGet (compErase c k) key = compGet c key := by
  induction c with
  | nil => simp [compErase]
  | cons p rest ih =>
      obtain ⟨k₁, v₁⟩ := p
      by_cases h : k₁ = k
      · subst h
        simp [compErase, compGet, Ne.symm hne, ih]
      · simp [compErase, compGet, h, ih]

theorem sidPayload_set_sentinel (c : List (String × String)) (f : String) :
    sidPayload (compSet c f "") = sidPayload (compErase c f) := by
  unfold sidPayload
  have hmap : ∀ key : String,
      compGetD (compSet c f "") key "" = compGetD (compErase c f) key "" := by
    intro key
    by_cases h : key = f
    · subst h
      simp [compGetD, compGet_compSet_self, compGet_compErase_self]
    · simp [compGetD, compGet_compSet_ne c f "" key h, compGet_compErase_ne c f key h]
  have hopt : ∀ field : String,
      (match compGet (compSet c f "") field with
        | some value => if value ≠ "" then some (field, value) else Option.none
        | Option.none => Option.none) =
      (match compGet (compErase c f) field with
        | some value => if value ≠ "" then some (field, value) else Option.none
        | Option.none => Option.none) := by
    intro field
    by_cases h : field = f
    · subst h
      simp [compGet_compSet_self, compGet_compErase_self]
    · rw [compGet_compSet_ne c f "" field h, compGet_compErase_ne c f field h]
  rw [List.map_congr_left (fun key _ => by rw [hmap key]),
    List.filterMap_congr (fun field _ => hopt field)]

/-- C1: `compute_sid` is the §4.1 algorithm — the string `sid-` followed by
the first 12 hex characters of the SHA-256 of the sorted compact JSON of the
eight declared fields, each missing one defaulted to the sentinel `""` and
`vuln_ids_digest` appended only when a non-sentinel value is present — and a
components mapping that sets any field to the literal sentinel yields the
same SID as one that omits the field. -/
theorem compute_sid_matches_spec (c : List (String × String)) (f : String) :
    compute_sid c = sidSpec c ∧
      compute_sid (compSet c f "") = compute_sid (compErase c f) := by
  constructor
  · unfold compute_sid sidSpec
    rw [sidPayload_eq_spec]
  · unfold compute_sid
    rw [sidPayload_set_sentinel]

/-! ## C2: SID agreement and the failure of SID injectivity -/

theorem sidPayload_congr (c c' : List (String × String))
    (h : ∀ k ∈ SID_FIELDS ++ OPTIONAL_FIELDS, compGet c k = compGet c' k) :
    sidPayload c = sidPayload c' := by
  unfold sidPayload
  have h1 : ∀ k ∈ SID_FIELDS, compGet c k = compGet c' k :=
    fun k hk => h k (List.mem_append_left _ hk)
  have h2 : ∀ k ∈ OPTIONAL_FIELDS, compGet c k = compGet c' k :=
    fun k hk => h k (List.mem_append_right _ hk)
  have hm : List.map (fun key => (key, compGetD c key "")) SID_FIELDS =
      List.map (fun key => (key, compGetD c' key "")) SID_FIELDS :=
    List.map_congr_left (fun key hk => by simp only [compGetD, h1 key hk])
  have hf : List.filterMap (fun field =>
        match compGet c field with
        | some value => if value ≠ "" then some (field, value) else Option.none
        | Option.none => Option.none) OPTIONAL_FIELDS =
      List.filterMap (fun field =>
        match compGet c' field with
        | some value => if value ≠ "" then some (field, value) else Option.none
        | Option.none => Option.none) OPTIONAL_FIELDS :=
    List.filterMap_congr (fun field hfld => by rw [h2 field hfld])
  rw [hm, hf]

/-- `compute_sid` reads the component mapping only at the declared fields. -/
theorem compute_sid_congr (c c' : List (String × String))
    (h : ∀ k ∈ SID_FIELDS ++ OPTIONAL_FIELDS, compGet c k = compGet c' k) :
    compute_sid c = compute_sid c' := by
  unfold compute_sid
  rw [sidPayload_congr c c' h]

/-- `_default_components` reads the requirement only at its component keys. -/
theorem _default_components_congr (r r' : PyDict)
    (h : ∀ k ∈ DEFAULT_COMPONENT_KEYS, r.get k = r'.get k) :
    _default_components r = _default_components r' := by
  have h1 := h "model_version" (by simp [DEFAULT_COMPONENT_KEYS])
  have h2 := h "seed" (by simp [DEFAULT_COMPONENT_KEYS])
  have h3 := h "retriever_commit" (by simp [DEFAULT_COMPONENT_KEYS])
  have h4 := h "corpus_snapshot" (by simp [DEFAULT_COMPONENT_KEYS])
  have h5 := h "pattern_id" (by simp [DEFAULT_COMPONENT_KEYS])
  have h6 := h "deps_digest" (by simp [DEFAULT_COMPONENT_KEYS])
  have h7 := h "base_image_digest" (by simp [DEFAULT_COMPONENT_KEYS])
  simp only [_default_components, reqComp, PyDict.getD, h1, h2, h3, h4, h5, h6, h7]

/-- C2 (amended): agreement on the listed reproducibility components forces
SID agreement — both at the component-mapping level and at the requirement
level through `_default_components`.  (The converse of the original claim —
that differing listed components force different SIDs — fails; see the
counterexample.) -/
theorem sid_agreement (c c' : List (String × String)) (r r' : PyDict)
    (hc : ∀ k ∈ SID_FIELDS ++ OPTIONAL_FIELDS, compGet c k = compGet c' k)
    (hr : ∀ k ∈ DEFAULT_COMPONENT_KEYS, r.get k = r'.get k) :
    compute_sid c = compute_sid c' ∧
      compute_sid (_default_components r) = compute_sid (_default_components r') :=
  ⟨compute_sid_congr c c' hc, by rw [_default_components_congr r r' hr]⟩

/-- Witness for `sid_agreement`: a component mapping with only an unlisted
key agrees with the empty one, and a requirement with only an unlisted key
agrees with the empty one. -/
theorem sid_agreement_witness :
    compute_sid [("foo", "x")] = compute_sid [] ∧
      compute_sid (_default_components [("extra", PyVal.int 1)]) =
        compute_sid (_default_components []) :=
  sid_agreement [("foo", "x")] [] [("extra", PyVal.int 1)] [] (by decide) (by decide)

/-- The low and high nibble of a byte, as `Fin 16` digits. -/
def byteNibbles (b : Nat) : List (Fin 16) :=
  [⟨b / 16 % 16, Nat.mod_lt _ (by norm_num)⟩, ⟨b % 16, Nat.mod_lt _ (by norm_num)⟩]

theorem byteHexChars_eq_map (b : Nat) :
    byteHexChars b = (byteNibbles b).map (fun d => hexChar d.1) := rfl

theorem bytesToHex_eq_map (bs : List Nat) :
    bytesToHex bs = (bs.flatMap byteNibbles).map (fun d => hexChar d.1) := by
  induction bs with
  | nil => rfl
  | cons b rest ih =>
      rw [bytesToHex, List.flatMap_cons, List.flatMap_cons, List.map_append,
        byteHexChars_eq_map]
      congr 1

theorem sha256_length (msg : List Nat) : (sha256 msg).length = 32 := by
  simp [sha256, sha256StateBytes, wordBytes]

theorem length_flatMap_byteNibbles (bs : List Nat) :
    (bs.flatMap byteNibbles).length = 2 * bs.length := by
  induction bs with
  | nil => simp
  | cons b rest ih =>
      simp [List.flatMap_cons, byteNibbles, ih]
      omega

/-- The 12 hex digits the SID keeps, as abstract nibbles. -/
def sidNibbles (c : List (String × String)) : List (Fin 16) :=
  ((sha256 (utf8Bytes (jsonDumpsFlat (sidPayload c)))).flatMap byteNibbles).take 12

/-- The SID's digit content as a function on positions. -/
def sidKey (c : List (String × String)) : Fin 12 → Fin 16 :=
  fun i => (sidNibbles c).getD i.1 0

theorem length_sidNibbles (c : List (String × String)) :
    (sidNibbles c).length = 12 := by
  rw [sidNibbles, List.length_take, length_flatMap_byteNibbles, sha256_length]
  omega

/-- A SID is exactly its 12 digit values: `compute_sid` factors through
`sidKey`. -/
theorem compute_sid_eq_encode (c : List (String × String)) :
    compute_sid c =
      "sid-" ++ String.mk (List.ofFn fun i : Fin 12 => hexChar (sidKey c i).1) := by
  have hlen : (sidNibbles c).length = 12 := length_sidNibbles c
  have key : (bytesToHex (sha256 (utf8Bytes (jsonDumpsFlat (sidPayload c))))).take 12 =
      List.ofFn fun i : Fin 12 => hexChar (sidKey c i).1 := by
    rw [bytesToHex_eq_map, ← List.map_take]
    rw [show ((sha256 (utf8Bytes (jsonDumpsFlat (sidPayload c)))).flatMap byteNibbles).take 12
        = sidNibbles c from rfl]
    apply List.ext_getElem
    · simp [hlen]
    · intro i h1 h2
      have hi : i < 12 := by simpa [hlen] using h1
      simp only [List.getElem_map, List.getElem_ofFn]
      congr 1
      show (sidNibbles c)[i].1 = (sidKey c ⟨i, hi⟩).1
      rw [sidKey, List.getD_eq_getElem (sidNibbles c) 0 (by omega)]
  rw [compute_sid, key]

/-- The string of `n` letters `a`. -/
def repA (n : Nat) : String := String.mk (List.replicate n 'a')

theorem repA_injective : Function.Injective repA := by
  intro n m h
  have h2 : List.replicate n 'a' = List.replicate m 'a' := congrArg String.data h
  simpa using congrArg List.length h2

/-- A family of requirements pairwise differing in their `retriever_commit`
component. -/
def reqFam (n : Nat) : PyDict := [("retriever_commit", PyVal.str (repA n))]

theorem reqFam_component (n : Nat) :
    compGet (_default_components (reqFam n)) "retriever_commit" = some (repA n) := by
  simp [reqFam, _default_components, reqComp, PyDict.get, PyDict.getD, PyVal.pyStr, compGet]

/-- C2 counterexample: it is not the case that requirements whose derived
component mappings differ on a listed reproducibility component always get
different SIDs — the SID keeps only 12 hex digits, so some two members of an
infinite family differing only in `retriever_commit` share a SID. -/
theorem sid_injectivity_fails :
    ¬ (∀ r r' : PyDict,
        (∃ k ∈ SID_FIELDS,
          compGet (_default_components r) k ≠ compGet (_default_components r') k) →
        compute_sid (_default_components r) ≠ compute_sid (_default_components r')) := by
  intro hclaim
  obtain ⟨n, m, hnm, hkey⟩ :=
    Finite.exists_ne_map_eq_of_infinite
      (fun n : ℕ => sidKey (_default_components (reqFam n)))
  have hsid : compute_sid (_default_components (reqFam n)) =
      compute_sid (_default_components (reqFam m)) := by
    have hkey₂ : sidKey (_default_components (reqFam n)) =
        sidKey (_default_components (reqFam m)) := hkey
    rw [compute_sid_eq_encode, compute_sid_eq_encode, hkey₂]
  have hdiff : compGet (_default_components (reqFam n)) "retriever_commit" ≠
      compGet (_default_components (reqFam m)) "retriever_commit" := by
    rw [reqFam_component, reqFam_component]
    intro h
    exact hnm (repA_injective (Option.some.inj h))
  exact hclaim (reqFam n) (reqFam m)
    ⟨"retriever_commit", by simp [SID_FIELDS], hdiff⟩ hsid

/-! ## Requirement normalization (`common/schema/requirement.py`) -/

/-- Python string `.lower()` (ASCII case mapping, which is all the sources
feed it). -/
def pyLower (s : String) : String := String.mk (s.data.map Char.toLower)

/-- Python string `.upper()`. -/
def pyUpper (s : String) : String := String.mk (s.data.map Char.toUpper)

/-- Python string `.strip()` (whitespace at both ends removed). -/
def pyStrip (s : String) : String :=
  String.mk (((s.data.dropWhile Char.isWhitespace).reverse.dropWhile Char.isWhitespace).reverse)

/-- Python `a or b` (left operand when truthy). -/
def pyOr (a b : PyVal) : PyVal := if a.truthy then a else b

/-- `_as_bool` from `common/schema/requirement.py`. -/
def _as_bool : PyVal → Bool
  | .bool b => b
  | .str s => ["true", "1", "yes", "on"].contains (pyLower (pyStrip s))
  | v => v.truthy

/-- `_coerce_identifier` from `common/schema/requirement.py`: non-strings
become `""`; strings are stripped, then spaces removed and uppercased. -/
def _coerce_identifier : PyVal → String
  | .str s =>
      let cleaned := pyStrip s
      if cleaned = "" then ""
      else pyUpper (String.mk (cleaned.data.filter (fun c => c ≠ ' ')))
  | _ => ""

/-- Whether a character survives `re.sub(r"[^a-z0-9]+", "-", ...)`. -/
def isSlugKeep (c : Char) : Bool :=
  (97 ≤ c.toNat && c.toNat ≤ 122) || (48 ≤ c.toNat && c.toNat ≤ 57)

/-- Collapse every maximal run of non-`[a-z0-9]` characters to one dash. -/
def slugCollapse : List Char → List Char
  | [] => []
  | c :: rest =>
      if isSlugKeep c then c :: slugCollapse rest
      else
        have : (rest.dropWhile (fun d => !isSlugKeep d)).length < rest.length + 1 :=
          Nat.lt_succ_of_le (List.dropWhile_suffix _).length_le
        '-' :: slugCollapse (rest.dropWhile (fun d => !isSlugKeep d))
termination_by l => l.length

/-- Python `.strip("-")`. -/
def stripDashes (l : List Char) : List Char :=
  ((l.dropWhile (fun c => c = '-')).reverse.dropWhile (fun c => c = '-')).reverse

/-- `slugify_vuln_id` from `common/schema/requirement.py`. -/
def slugify_vuln_id (value : String) : String :=
  let slug := String.mk (stripDashes (slugCollapse (pyLower value).data))
  if slug = "" then "vuln" else slug

/-- `_extract_vuln_ids` from `common/schema/requirement.py`: the deduplicated
coerced `vuln_ids` entries, with the primary id (`vuln_id` / `cwe_id` /
`cve_id`) moved to the front. -/
def _extract_vuln_ids (requirement : PyDict) : List String :=
  let declared :=
    match requirement.get "vuln_ids" with
    | some (.list entries) =>
        entries.foldl
          (fun acc entry =>
            let identifier := _coerce_identifier entry
            if identifier ≠ "" ∧ identifier ∉ acc then acc ++ [identifier] else acc)
          []
    | _ => []
  let primary := _coerce_identifier
    (pyOr (pyOr (requirement.getD "vuln_id" .none) (requirement.getD "cwe_id" .none))
      (requirement.getD "cve_id" .none))
  if primary = "" then declared else primary :: declared.erase primary

/-- The Python runtime errors the embedded fragments can raise. -/
inductive PyError where
  | nameError (name : String)
  | attributeError (msg : String)
  | validationError (msg : String)
  | typeError (msg : String)
  | valueError (msg : String)
  | runtimeError (msg : String)
deriving Repr, DecidableEq

/-- The `defaults` dict `_normalize_executor_policy` builds and never reads
(kept to mirror the source). -/
def executorPolicyDefaults : PyDict :=
  [("allow_network", .bool false), ("network_mode", .str "none"), ("sidecars", .list [])]

/-- `_normalize_executor_policy` from `common/schema/requirement.py`,
including its mis-indented sidecar loop: the `for entry in sidecars` body is
only the `continue` guard, and the alias/append block runs once after the
loop with `entry` still bound to the last element — so an empty sidecar list
leaves `entry` unbound (`NameError`) and a non-dict last element has no
`.get` (`AttributeError`). -/
def _normalize_executor_policy (requirement : PyDict) : Except PyError PyVal := do
  let policy₀ := pyOr (requirement.getD "executor" .none) (.dict [])
  let policy : PyDict := match policy₀ with | .dict xs => xs | _ => []
  let allowNetwork := (policy.getD "allow_network" (.bool false)).truthy
  let networkMode := PyVal.pyStr
    (pyOr (policy.getD "network_mode" .none)
      (if (policy.getD "allow_network" .none).truthy then .str "bridge" else .str "none"))
  let networkNameRaw := pyStrip (PyVal.pyStr (pyOr (policy.getD "network_name" .none) (.str "")))
  let networkName : PyVal := if networkNameRaw = "" then .none else .str networkNameRaw
  let sidecars₀ := pyOr (policy.getD "sidecars" .none) (.list [])
  let sidecarsList ← match sidecars₀ with
    | .list entries => do
        let entry ← match entries.getLast? with
          | some e => Except.ok e
          | Option.none => Except.error (.nameError "entry")
        let entryD : PyDict ← match entry with
          | .dict xs => Except.ok (xs : PyDict)
          | _ => Except.error (.attributeError "get")
        let rawAliases := pyOr (PyDict.getD entryD "aliases" .none) (.list [])
        let aliases : List PyVal :=
          match rawAliases with
          | .list xs =>
              xs.filterMap (fun av =>
                match av with
                | .str s => if pyStrip s ≠ "" then some (PyVal.str (pyStrip s)) else Option.none
                | _ => Option.none)
          | _ => []
        Except.ok [PyVal.dict
          [("name", PyDict.getD entryD "name" (.str "sidecar")),
           ("image", PyDict.getD entryD "image" .none),
           ("env", pyOr (PyDict.getD entryD "env" .none) (.dict [])),
           ("ready_probe", pyOr (PyDict.getD entryD "ready_probe" .none) (.dict [])),
           ("network_mode", pyOr (PyDict.getD entryD "network_mode" .none) (.str networkMode)),
           ("aliases", .list aliases)]]
    | _ => Except.ok ([] : List PyVal)
  Except.ok (PyVal.dict
    [("allow_network", .bool allowNetwork),
     ("network_mode", .str networkMode),
     ("network_name", networkName),
     ("sidecars", .list sidecarsList)])

/-- One entry of the normalization's `bundles` list. -/
structure VulnBundle where
  vuln_id : String
  slug : String
  workspace_subdir : String
deriving Repr, DecidableEq

/-- The `RequirementNormalization` dataclass. -/
structure RequirementNormalization where
  requirement : PyDict
  requested_vuln_ids : List String
  effective_vuln_ids : List String
  multi_vuln : Bool
  vuln_ids_digest : Option String
  warnings : List String
  ignored_vuln_ids : List String
  bundles : List VulnBundle
  executor_policy : PyVal
deriving Repr, DecidableEq

/-- String sort (Python `sorted`, code-point order). -/
def insertString (s : String) : List String → List String
  | [] => [s]
  | t :: rest => if s < t then s :: t :: rest else t :: insertString s rest

/-- Python `sorted` on a string list. -/
def sortStrings : List String → List String
  | [] => []
  | s :: rest => insertString s (sortStrings rest)

/-- `normalize_requirement` from `common/schema/requirement.py`. -/
def normalize_requirement (requirement : PyDict) (multi_vuln_opt_in : Bool) :
    Except PyError RequirementNormalization := do
  let requested := _extract_vuln_ids requirement
  if requested.isEmpty then
    Except.error (.validationError "At least one vuln_id or vuln_ids entry is required.")
  else
    let rawMulti := _as_bool (requirement.getD "multi_vuln" .none)
    let multiVuln := (rawMulti || multi_vuln_opt_in) && decide (requested.length > 1)
    let ignored := if !multiVuln && decide (requested.length > 1) then requested.tail else []
    let warnings :=
      if !multiVuln && decide (requested.length > 1) then
        ["multi_vuln disabled; ignoring additional vuln_ids: " ++
          String.intercalate ", " ignored]
      else []
    let effective := if multiVuln then requested else [requested.headD ""]
    let normalizedReq :=
      ((requirement.set "vuln_id" (.str (effective.headD ""))).set
        "vuln_ids" (.list (effective.map PyVal.str))).set "multi_vuln" (.bool multiVuln)
    let vulnIdsDigest : Option String :=
      if multiVuln then
        some (sha256Hex (utf8Bytes (String.intercalate "\n" (sortStrings effective))))
      else Option.none
    let singleBundle := effective.length = 1
    let bundles := effective.map (fun vid =>
      let slug := slugify_vuln_id vid
      ⟨vid, slug, if singleBundle then "app" else "app/" ++ slug⟩)
    let executorPolicy ← _normalize_executor_policy normalizedReq
    Except.ok
      { requirement := normalizedReq
        requested_vuln_ids := requested
        effective_vuln_ids := effective
        multi_vuln := multiVuln
        vuln_ids_digest := vulnIdsDigest
        warnings := warnings
        ignored_vuln_ids := ignored
        bundles := bundles
        executor_policy := executorPolicy }

/-! ## C3: normalization fails on requirements without sidecars -/

/-- C3 (code bug): `normalize_requirement` was specified to fail only when no
vuln id is resolvable, but the mis-indented sidecar block makes it raise
`NameError` for a requirement with a vuln id and no `executor.sidecars`
(absent or empty), while a one-sidecar requirement still normalizes. -/
theorem normalize_requirement_executor_crash :
    normalize_requirement [("vuln_id", PyVal.str "CWE-89")] false =
      Except.error (PyError.nameError "entry") ∧
    normalize_requirement
      [("vuln_id", PyVal.str "CWE-89"),
       ("executor", PyVal.dict [("sidecars", PyVal.list [])])] false =
      Except.error (PyError.nameError "entry") ∧
    (normalize_requirement
      [("vuln_id", PyVal.str "CWE-89"),
       ("executor", PyVal.dict
         [("sidecars", PyVal.list [PyVal.dict [("name", PyVal.str "db")]])])] false).isOk =
      true :=
  ⟨rfl, rfl, rfl⟩

/-! ## Plan construction (`orchestrator/plan.py`) -/

/-- The digits of a decimal string, if it is all digits. -/
def digitsToNat? (l : List Char) : Option Nat :=
  if l.isEmpty then Option.none
  else l.foldl
    (fun acc c => match acc with
      | some n => if c.isDigit then some (n * 10 + (c.toNat - 48)) else Option.none
      | Option.none => Option.none)
    (some 0)

/-- Model of Python `int(str)` parsing (optional sign, digits). -/
def parseIntStr (s : String) : Option Int :=
  match (pyStrip s).data with
  | '-' :: rest => (digitsToNat? rest).map (fun n => -(n : Int))
  | '+' :: rest => (digitsToNat? rest).map (fun n => (n : Int))
  | l => (digitsToNat? l).map (fun n => (n : Int))

/-- Model of Python `int(value)` on the modelled values. -/
def pyInt : PyVal → Except PyError Int
  | .int n => Except.ok n
  | .float q => Except.ok (if 0 ≤ q then ⌊q⌋ else -⌊-q⌋)
  | .bool b => Except.ok (if b then 1 else 0)
  | .str s =>
      match parseIntStr s with
      | some n => Except.ok n
      | Option.none => Except.error (.valueError s)
  | _ => Except.error (.typeError "int() argument")

/-- Model of a decimal-fraction string for `float()` (floats in this
pipeline only carry small decimal literals, modelled as rationals). -/
def parseDecimal? (s : String) : Option ℚ :=
  match (pyStrip s).data with
  | '-' :: rest => (parseDecimalDigits rest).map (fun q => -q)
  | '+' :: rest => parseDecimalDigits rest
  | l => parseDecimalDigits l
where
  parseDecimalDigits (l : List Char) : Option ℚ :=
    match l.span (fun c => c ≠ '.') with
    | (intPart, []) => (digitsToNat? intPart).map (fun n => (n : ℚ))
    | (intPart, _ :: fracPart) =>
        match digitsToNat? intPart, digitsToNat? fracPart with
        | some n, some f => some ((n : ℚ) + (f : ℚ) / ((10 : ℚ) ^ fracPart.length))
        | _, _ => Option.none

/-- `_safe_float` from `common/variability/manager.py` (never raises). -/
def _safe_float (v : PyVal) (default : ℚ) : ℚ :=
  match v with
  | .int n => (n : ℚ)
  | .float q => q
  | .bool b => if b then 1 else 0
  | .str s => (parseDecimal? s).getD default
  | _ => default

/-- `_safe_int` from `common/variability/manager.py` (never raises). -/
def _safe_int (v : PyVal) (default : Int) : Int :=
  match v with
  | .int n => n
  | .float q => if 0 ≤ q then ⌊q⌋ else -⌊-q⌋
  | .bool b => if b then 1 else 0
  | .str s => (parseIntStr s).getD default
  | _ => default

/-- `VariationSpec` from `common/variability/manager.py`. -/
structure VariationSpec where
  mode : String
  temperature : ℚ
  top_p : ℚ
  self_consistency_k : Int
  pattern_pool_seed : Int
  extras : PyDict
deriving Repr, DecidableEq

/-- `VariationSpec.for_mode`. -/
def variationForMode (mode : PyVal) (seed : PyVal) : Except PyError VariationSpec := do
  let modeStr ← match pyOr mode (.str "deterministic") with
    | .str s => Except.ok (pyLower s)
    | _ => Except.error (.attributeError "lower")
  if modeStr = "diverse" then
    Except.ok ⟨"diverse", 7/10, 95/100, 5, _safe_int seed 0, []⟩
  else
    Except.ok ⟨"deterministic", 0, 1, 1, _safe_int seed 0, []⟩

/-- The `_CORE_KEYS` set from `common/variability/manager.py`. -/
def variationCoreKeys : List String :=
  ["mode", "temperature", "top_p", "self_consistency_k", "pattern_pool_seed"]

/-- `VariationSpec.from_raw` (and so `VariationManager.normalize`). -/
def variationFromRaw (raw : PyVal) (seed : PyVal) : Except PyError VariationSpec := do
  let rawD : PyDict ← match pyOr raw (.dict []) with
    | .dict xs => Except.ok (xs : PyDict)
    | _ => Except.error (.attributeError "get")
  let base ← variationForMode (PyDict.getD rawD "mode" .none)
    (PyDict.getD rawD "pattern_pool_seed" seed)
  Except.ok
    { mode := base.mode
      temperature := _safe_float (PyDict.getD rawD "temperature" .none) base.temperature
      top_p := _safe_float (PyDict.getD rawD "top_p" .none) base.top_p
      self_consistency_k :=
        max 1 (_safe_int (PyDict.getD rawD "self_consistency_k" .none) base.self_consistency_k)
      pattern_pool_seed :=
        _safe_int (PyDict.getD rawD "pattern_pool_seed" .none) base.pattern_pool_seed
      extras := rawD.filter (fun kv => kv.1 ∉ variationCoreKeys) }

/-- `_normalize_variation_key` from `orchestrator/plan.py`. -/
def _normalize_variation_key (requirement : PyDict) : Except PyError VariationSpec :=
  variationFromRaw (PyDict.getD requirement "variation_key" .none)
    (PyDict.getD requirement "seed" (.int 0))

/-- `_loop_config` from `orchestrator/plan.py` (the `max_loops` value). -/
def _loop_config (requirement : PyDict) : Except PyError Int := do
  let loopD : PyDict ← match pyOr (PyDict.getD requirement "loop" .none) (.dict []) with
    | .dict xs => Except.ok (xs : PyDict)
    | _ => Except.error (.attributeError "get")
  let maxLoops ← pyInt (PyDict.getD loopD "max_loops" (.int 3))
  Except.ok (max 1 maxLoops)

/-- The `policy` section `_policy_config` builds. -/
structure PolicyConfig where
  allow_intentional_vuln : Bool
  stop_on_first_failure : Bool
  executor : PyVal
deriving Repr, DecidableEq

/-- `_policy_config` from `orchestrator/plan.py`. -/
def _policy_config (normalization : RequirementNormalization) : Except PyError PolicyConfig := do
  let requirement := normalization.requirement
  let allowIntentional := (PyDict.getD requirement "allow_intentional_vuln" (.bool false)).truthy
  let policyD : PyDict ← match pyOr (PyDict.getD requirement "policy" .none) (.dict []) with
    | .dict xs => Except.ok (xs : PyDict)
    | _ => Except.error (.attributeError "get")
  let stopOnFirst := (PyDict.getD policyD "stop_on_first_failure"
    (PyDict.getD requirement "stop_on_first_failure" (.bool false))).truthy
  Except.ok ⟨allowIntentional, stopOnFirst, normalization.executor_policy⟩

/-- The plan record `build_plan` produces.  Conditionally-added JSON keys
(`vuln_ids_digest`, `ignored_vuln_ids`, `warnings`) are `Option` fields that
are `some` exactly when the source adds the key. -/
structure Plan where
  sid : String
  created_at : String
  requirement : PyDict
  variation_key : VariationSpec
  loop_max_loops : Int
  policy : PolicyConfig
  state : String
  features_multi_vuln : Bool
  requested_vuln_ids : List String
  vuln_ids : List String
  paths_metadata : String
  paths_workspace : String
  paths_artifacts : String
  vuln_ids_digest : Option String
  run_matrix_bundles : List VulnBundle
  ignored_vuln_ids : Option (List String)
  warnings : Option (List String)
deriving Repr, DecidableEq

/-- `build_plan` from `orchestrator/plan.py`.  `created_at` stands for the
`datetime.now(timezone.utc).isoformat()` call and `root` for the repository
root that the `common/paths.py` helpers resolve. -/
def build_plan (normalization : RequirementNormalization) (created_at root : String) :
    Except PyError Plan := do
  let components₀ := _default_components normalization.requirement
  let components :=
    match normalization.vuln_ids_digest with
    | some d => if d ≠ "" then compSet components₀ "vuln_ids_digest" d else components₀
    | Option.none => components₀
  let sid := compute_sid components
  let variation ← _normalize_variation_key normalization.requirement
  let maxLoops ← _loop_config normalization.requirement
  let policy ← _policy_config normalization
  Except.ok
    { sid := sid
      created_at := created_at
      requirement := normalization.requirement
      variation_key := variation
      loop_max_loops := maxLoops
      policy := policy
      state := "PLAN"
      features_multi_vuln := normalization.multi_vuln
      requested_vuln_ids := normalization.requested_vuln_ids
      vuln_ids := normalization.effective_vuln_ids
      paths_metadata := root ++ "/metadata/" ++ sid
      paths_workspace := root ++ "/workspaces/" ++ sid ++ "/app"
      paths_artifacts := root ++ "/artifacts/" ++ sid
      vuln_ids_digest :=
        (match normalization.vuln_ids_digest with
          | some d => if d ≠ "" then some d else Option.none
          | Option.none => Option.none)
      run_matrix_bundles := normalization.bundles
      ignored_vuln_ids :=
        if normalization.ignored_vuln_ids ≠ [] then some normalization.ignored_vuln_ids
        else Option.none
      warnings :=
        if normalization.warnings ≠ [] then some normalization.warnings else Option.none }

/-! ## C5: single-vuln downgrade -/

/-- The fields of any successful normalization, read off the source. -/
theorem normalize_requirement_ok_fields (r : PyDict) (opt : Bool)
    (n : RequirementNormalization)
    (hn : normalize_requirement r opt = Except.ok n) :
    n.requested_vuln_ids = _extract_vuln_ids r ∧
    n.multi_vuln = ((_as_bool (PyDict.getD r "multi_vuln" .none) || opt) &&
      decide ((_extract_vuln_ids r).length > 1)) ∧
    n.effective_vuln_ids =
      (if n.multi_vuln then n.requested_vuln_ids else [n.requested_vuln_ids.headD ""]) ∧
    n.ignored_vuln_ids =
      (if !n.multi_vuln && decide (n.requested_vuln_ids.length > 1)
        then n.requested_vuln_ids.tail else []) ∧
    n.warnings =
      (if !n.multi_vuln && decide (n.requested_vuln_ids.length > 1)
        then ["multi_vuln disabled; ignoring additional vuln_ids: " ++
          String.intercalate ", " n.requested_vuln_ids.tail] else []) := by
  unfold normalize_requirement at hn
  by_cases hemp : (_extract_vuln_ids r).isEmpty
  · rw [if_pos hemp] at hn
    exact absurd hn (by simp)
  · rw [if_neg hemp] at hn
    simp only [bind, Except.bind] at hn
    split at hn
    · exact absurd hn (by simp)
    · simp only [Except.ok.injEq] at hn
      subst hn
      simp
      split <;> simp_all

/-- The plan fields C5 speaks about, read off `build_plan`. -/
theorem build_plan_ok_fields (n : RequirementNormalization) (created_at root : String)
    (p : Plan) (hp : build_plan n created_at root = Except.ok p) :
    p.vuln_ids = n.effective_vuln_ids ∧
    p.requested_vuln_ids = n.requested_vuln_ids ∧
    p.ignored_vuln_ids =
      (if n.ignored_vuln_ids ≠ [] then some n.ignored_vuln_ids else Option.none) ∧
    p.warnings = (if n.warnings ≠ [] then some n.warnings else Option.none) := by
  unfold build_plan at hp
  simp only [bind, Except.bind] at hp
  split at hp
  · exact absurd hp (by simp)
  · split at hp
    · exact absurd hp (by simp)
    · split at hp
      · exact absurd hp (by simp)
      · simp only [Except.ok.injEq] at hp
        subst hp
        simp

/-- C5: for a requirement with multi-vuln disabled (and no opt-in) that
lists more than one vuln id, normalization keeps exactly the first requested
id as the effective list, records the remaining ids as ignored together with
a warning, and the derived plan carries the single-id effective list, the
ignored ids and the warning. -/
theorem single_vuln_downgrade (r : PyDict) (n : RequirementNormalization) (p : Plan)
    (created_at root : String)
    (hn : normalize_requirement r false = Except.ok n)
    (hmv : _as_bool (PyDict.getD r "multi_vuln" .none) = false)
    (hreq : n.requested_vuln_ids.length > 1)
    (hp : build_plan n created_at root = Except.ok p) :
    n.multi_vuln = false ∧
    n.effective_vuln_ids = [n.requested_vuln_ids.headD ""] ∧
    n.ignored_vuln_ids = n.requested_vuln_ids.tail ∧
    n.warnings = ["multi_vuln disabled; ignoring additional vuln_ids: " ++
      String.intercalate ", " n.requested_vuln_ids.tail] ∧
    p.vuln_ids = [n.requested_vuln_ids.headD ""] ∧
    p.ignored_vuln_ids = some (n.requested_vuln_ids.tail) ∧
    p.warnings = some n.warnings := by
  obtain ⟨hre, hm, heff, hig, hw⟩ := normalize_requirement_ok_fields r false n hn
  obtain ⟨pv, pr, pig, pw⟩ := build_plan_ok_fields n created_at root p hp
  have hmain : n.multi_vuln = false := by rw [hm, hmv]; simp
  have hlen : decide (n.requested_vuln_ids.length > 1) = true := by simpa using hreq
  have htail : n.requested_vuln_ids.tail ≠ [] := by
    have : n.requested_vuln_ids.tail.length > 0 := by
      rw [List.length_tail]; omega
    exact List.ne_nil_of_length_pos this
  have heff2 : n.effective_vuln_ids = [n.requested_vuln_ids.headD ""] := by
    rw [heff, hmain]; simp
  have hig2 : n.ignored_vuln_ids = n.requested_vuln_ids.tail := by
    rw [hig, hmain, hlen]; simp
  have hw2 : n.warnings = ["multi_vuln disabled; ignoring additional vuln_ids: " ++
      String.intercalate ", " n.requested_vuln_ids.tail] := by
    rw [hw, hmain, hlen]; simp
  refine ⟨hmain, heff2, hig2, hw2, ?_, ?_, ?_⟩
  · rw [pv, heff2]
  · rw [pig, hig2]
    simp [htail]
  · rw [pw, hw2]
    simp

instance : Inhabited RequirementNormalization :=
  ⟨{ requirement := [], requested_vuln_ids := [], effective_vuln_ids := [],
     multi_vuln := false, vuln_ids_digest := Option.none, warnings := [],
     ignored_vuln_ids := [], bundles := [], executor_policy := .none }⟩

instance : Inhabited Plan :=
  ⟨{ sid := "", created_at := "", requirement := [],
     variation_key := ⟨"", 0, 0, 0, 0, []⟩, loop_max_loops := 0,
     policy := ⟨false, false, .none⟩, state := "", features_multi_vuln := false,
     requested_vuln_ids := [], vuln_ids := [], paths_metadata := "",
     paths_workspace := "", paths_artifacts := "", vuln_ids_digest := Option.none,
     run_matrix_bundles := [], ignored_vuln_ids := Option.none, warnings := Option.none }⟩

/-- A two-vuln requirement, with one sidecar so normalization survives the
sidecar indentation bug. -/
def c5Requirement : PyDict :=
  [("vuln_ids", .list [.str "CWE-89", .str "CWE-352"]),
   ("executor", .dict [("sidecars", .list [.dict []])])]

/-- The normalization of `c5Requirement`. -/
def c5Normalization : RequirementNormalization :=
  (normalize_requirement c5Requirement false).toOption.getD default

/-- The plan derived from `c5Normalization`. -/
def c5Plan : Plan :=
  (build_plan c5Normalization "2024-01-01T00:00:00+00:00" "/repo").toOption.getD default

/-- Witness for `single_vuln_downgrade` at the concrete two-vuln
requirement. -/
theorem single_vuln_downgrade_witness :
    c5Normalization.multi_vuln = false ∧
    c5Normalization.effective_vuln_ids = [c5Normalization.requested_vuln_ids.headD ""] ∧
    c5Normalization.ignored_vuln_ids = c5Normalization.requested_vuln_ids.tail ∧
    c5Normalization.warnings = ["multi_vuln disabled; ignoring additional vuln_ids: " ++
      String.intercalate ", " c5Normalization.requested_vuln_ids.tail] ∧
    c5Plan.vuln_ids = [c5Normalization.requested_vuln_ids.headD ""] ∧
    c5Plan.ignored_vuln_ids = some (c5Normalization.requested_vuln_ids.tail) ∧
    c5Plan.warnings = some c5Normalization.warnings :=
  single_vuln_downgrade c5Requirement c5Normalization c5Plan
    "2024-01-01T00:00:00+00:00" "/repo" rfl rfl (by decide) rfl

/-! ## Loop controller and Reflexion store
(`orchestrator/loop_controller.py`, `rag/memories/__init__.py`) -/

/-- A Reflexion memory entry (`ReflexionRecord`). -/
structure ReflexionRecord where
  sid : String
  loop_count : Int
  stage : String
  reason : String
  remediation_hint : String
  blocking : Bool
  metadata : PyDict
  timestamp : String
deriving Repr, DecidableEq

/-- `append_memory`: the JSONL store grows by exactly the one record. -/
def append_memory (store : List ReflexionRecord) (record : ReflexionRecord) :
    List ReflexionRecord :=
  store ++ [record]

/-- One entry of `loop_state.json`'s `history`. -/
structure HistoryEntry where
  loop : Int
  stage : String
  success : Bool
  blocking : Bool
  reason : String
  fix_hint : String
  timestamp : String
  metadata : PyDict
deriving Repr, DecidableEq

/-- The `loop_state.json` contents a `LoopController` maintains. -/
structure LoopState where
  sid : String
  max_loops : Int
  current_loop : Int
  history : List HistoryEntry
  last_result : Option String
deriving Repr, DecidableEq

/-- `_default_state` from `orchestrator/loop_controller.py`. -/
def _default_state (sid : String) (maxLoops : Int) : LoopState :=
  ⟨sid, maxLoops, 0, [], Option.none⟩

/-- The `LoopOutcome` dataclass. -/
structure LoopOutcome where
  loop : Int
  success : Bool
  stage : String
  reason : String
  blocking : Bool
  fix_hint : String
  timestamp : String
deriving Repr, DecidableEq

/-- `LoopController.start_loop` as a state transition. -/
def start_loop (st : LoopState) : Except PyError LoopState :=
  if st.current_loop ≥ st.max_loops then
    Except.error (.runtimeError "Loop limit reached")
  else Except.ok { st with current_loop := st.current_loop + 1 }

/-- `LoopController._record_outcome` as a state transition (`now` stands for
`datetime.now(timezone.utc).isoformat()`). -/
def _record_outcome (st : LoopState) (success : Bool) (stage reason fix_hint : String)
    (blocking : Bool) (metadata : Option PyDict) (now : String) :
    Except PyError (LoopState × LoopOutcome) :=
  if st.current_loop = 0 then
    Except.error (.runtimeError "Call start_loop() before recording an outcome")
  else
    let entry : HistoryEntry :=
      ⟨st.current_loop, stage, success, blocking, reason, fix_hint, now, metadata.getD []⟩
    Except.ok
      ({ st with
          history := st.history ++ [entry]
          last_result := some (if success then "success" else "failure") },
        ⟨st.current_loop, success, stage, reason, blocking, fix_hint, now⟩)

/-- `LoopController.record_success`: records the outcome and leaves the
Reflexion store untouched. -/
def record_success (st : LoopState) (store : List ReflexionRecord)
    (stage note : String) (now : String) :
    Except PyError (LoopState × List ReflexionRecord × LoopOutcome) := do
  let (st₂, outcome) ← _record_outcome st true stage note "" false Option.none now
  Except.ok (st₂, store, outcome)

/-- `LoopController.record_failure`: records the outcome and appends a
Reflexion record — unconditionally, whether or not `blocking` is set. -/
def record_failure (st : LoopState) (store : List ReflexionRecord)
    (stage reason fix_hint : String) (blocking : Bool) (metadata : Option PyDict)
    (now : String) :
    Except PyError (LoopState × List ReflexionRecord × LoopOutcome) := do
  let (st₂, outcome) ← _record_outcome st false stage reason fix_hint blocking metadata now
  let record : ReflexionRecord :=
    ⟨st.sid, outcome.loop, stage, reason, fix_hint, blocking, metadata.getD [], outcome.timestamp⟩
  Except.ok (st₂, append_memory store record, outcome)

/-- C4 counterexample: a failure recorded with `blocking := false` still
appends a Reflexion record (the claim says only blocking failures do). -/
theorem reflexion_appended_on_nonblocking_failure :
    (record_failure ⟨"sid-x", 3, 1, [], Option.none⟩ [] "REVIEW" "bad" "" false
        Option.none "t").map (fun r => r.2.1) =
      Except.ok [⟨"sid-x", 1, "REVIEW", "bad", "", false, [], "t"⟩] := rfl

/-- C4 (amended): every `record_failure` call — blocking or not — appends
exactly one Reflexion record carrying its `blocking` flag, and
`record_success` appends none. -/
theorem reflexion_append_per_failure (st : LoopState) (store : List ReflexionRecord)
    (stage reason fix_hint note : String) (blocking : Bool) (metadata : Option PyDict)
    (now : String) (h : st.current_loop ≠ 0) :
    (record_failure st store stage reason fix_hint blocking metadata now).map
        (fun r => r.2.1) =
      Except.ok (store ++
        [⟨st.sid, st.current_loop, stage, reason, fix_hint, blocking,
          metadata.getD [], now⟩]) ∧
    (record_success st store stage note now).map (fun r => r.2.1) = Except.ok store := by
  unfold record_failure record_success _record_outcome append_memory
  simp [h, bind, Except.bind, Except.map]

/-- Witness for `reflexion_append_per_failure` on a started loop. -/
theorem reflexion_append_per_failure_witness :
    (record_failure ⟨"sid-w", 3, 2, [], Option.none⟩ [] "REVIEW" "oops" "fix" true
        Option.none "t").map (fun r => r.2.1) =
      Except.ok ([] ++
        [⟨"sid-w", 2, "REVIEW", "oops", "fix", true, (Option.none : Option PyDict).getD [],
          "t"⟩]) ∧
    (record_success ⟨"sid-w", 3, 2, [], Option.none⟩ [] "REVIEW" "note" "t").map
        (fun r => r.2.1) = Except.ok [] :=
  reflexion_append_per_failure ⟨"sid-w", 3, 2, [], Option.none⟩ [] "REVIEW" "oops" "fix"
    "note" true Option.none "t" (by decide)

/-! ## Pack gate (`orchestrator/pack.py`) -/

/-- `assert_review_passed` from `orchestrator/pack.py`: `loopState` is the
parsed `loop_state.json` when the file exists, `plan` the plan dict, and
`allowIntentional` the `--allow-intentional-vuln` CLI flag that `main`
passes through. -/
def assert_review_passed (loopState : Option PyDict) (plan : PyDict)
    (allowIntentional : Bool) : Except PyError Unit :=
  match loopState with
  | Option.none => Except.ok ()
  | some state =>
      let lastResult := PyDict.getD state "last_result" .none
      if lastResult.truthy ∧ lastResult ≠ .str "success" then
        match PyDict.getD plan "policy" (.dict []) with
        | .dict policy =>
            if allowIntentional ∧ (PyDict.getD policy "allow_intentional_vuln" .none).truthy
            then Except.ok ()
            else Except.error (.runtimeError "Cannot pack: loop controller last_result")
        | _ => Except.error (.attributeError "get")
      else Except.ok ()

/-- C9 counterexample: with `last_result = "failure"` and
`plan.policy.allow_intentional_vuln = true` but without the
`--allow-intentional-vuln` CLI flag, Pack still refuses — the plan policy
alone does not bypass the gate. -/
theorem pack_policy_alone_does_not_bypass :
    assert_review_passed (some [("last_result", .str "failure")])
      [("policy", .dict [("allow_intentional_vuln", .bool true)])] false =
      Except.error (PyError.runtimeError "Cannot pack: loop controller last_result") := rfl

/-- C9 (amended): with a well-formed plan policy section, Pack refuses
exactly when the recorded `last_result` is truthy and differs from
`"success"` and the bypass — which needs both the CLI flag and the plan
policy — is not granted; a missing loop state file always passes. -/
theorem pack_gate (state plan policy : PyDict) (flag : Bool)
    (hpol : PyDict.getD plan "policy" (.dict []) = .dict policy) :
    ((assert_review_passed (some state) plan flag = Except.ok ()) ↔
      (¬((PyDict.getD state "last_result" .none).truthy ∧
          PyDict.getD state "last_result" .none ≠ .str "success") ∨
        (flag ∧ (PyDict.getD policy "allow_intentional_vuln" .none).truthy))) ∧
    assert_review_passed Option.none plan flag = Except.ok () := by
  constructor
  · simp only [assert_review_passed]
    rw [hpol]
    by_cases hLast : (PyDict.getD state "last_result" .none).truthy ∧
        PyDict.getD state "last_result" .none ≠ .str "success"
    · by_cases hByp : flag ∧ (PyDict.getD policy "allow_intentional_vuln" .none).truthy
      · simp [hLast, hByp]
      · simp [hLast, hByp]
    · simp [hLast]
  · rfl

/-- Witness for `pack_gate`: a blocked state with the flag and the policy
both set passes, matching the characterisation. -/
theorem pack_gate_witness :
    ((assert_review_passed (some [("last_result", PyVal.str "failure")])
        [("policy", PyVal.dict [("allow_intentional_vuln", PyVal.bool true)])] true =
        Except.ok ()) ↔
      (¬((PyDict.getD [("last_result", PyVal.str "failure")] "last_result" .none).truthy ∧
          PyDict.getD [("last_result", PyVal.str "failure")] "last_result" .none ≠
            .str "success") ∨
        (true ∧ (PyDict.getD [("allow_intentional_vuln", PyVal.bool true)]
          "allow_intentional_vuln" .none).truthy))) ∧
    assert_review_passed Option.none
      [("policy", PyVal.dict [("allow_intentional_vuln", PyVal.bool true)])] true =
      Except.ok () :=
  pack_gate [("last_result", PyVal.str "failure")]
    [("policy", PyVal.dict [("allow_intentional_vuln", PyVal.bool true)])]
    [("allow_intentional_vuln", PyVal.bool true)] true (by decide)

/-! ## Synthesis scoring and winner selection (`agents/generator/synthesis.py`) -/

/-- Python `round(x, 3)` on the rational float model (round-half-to-even). -/
def round3 (q : ℚ) : ℚ :=
  let scaled := q * 1000
  let fl := ⌊scaled⌋
  let frac := scaled - (fl : ℚ)
  let n : Int :=
    if frac < 1/2 then fl
    else if frac > 1/2 then fl + 1
    else if fl % 2 = 0 then fl else fl + 1
  (n : ℚ) / 1000

/-- `SynthesisEngine._score_candidate`: `min(1.0, round(max(0.0, 1.0 −
0.2·violations) + max(0.0, min(1.0, signal))·0.3, 3))`. -/
def _score_candidate (violation_count : Nat) (signal_score : ℚ) : ℚ :=
  let base := max 0 (1 - (1/5 : ℚ) * violation_count)
  let bonus := max 0 (min 1 signal_score) * (3/10)
  min 1 (round3 (base + bonus))

/-- The score formula exactly as the claim words it:
`clamp(1 − 0.2·violation_count, 0, 1) + 0.3·static_signal_score`. -/
def scoreSpecClaim (violation_count : Nat) (signal_score : ℚ) : ℚ :=
  min 1 (max 0 (1 - (1/5 : ℚ) * violation_count)) + (3/10) * signal_score

/-- C6 counterexample: with zero violations and a full static signal the
code caps the score at `1`, while the claim's formula yields `1.3`. -/
theorem score_cap_counterexample :
    _score_candidate 0 1 = 1 ∧ scoreSpecClaim 0 1 = 13/10 ∧
      _score_candidate 0 1 ≠ scoreSpecClaim 0 1 := by
  refine ⟨?_, ?_, ?_⟩ <;> norm_num [_score_candidate, scoreSpecClaim, round3]

/-- The fields of a synthesis `CandidateReport` that the selection step
reads (`manifest` stands for the parsed manifest that gets materialised). -/
structure CandidateReport where
  index : Nat
  violations : List String
  score : ℚ
  manifest : PyVal
deriving Repr, DecidableEq

/-- The sort key of `SynthesisEngine.run`'s winner selection:
`(report.score, -report.index)`, compared lexicographically. -/
def reportKey (r : CandidateReport) : Lex (ℚ × Int) := toLex (r.score, -(r.index : Int))

/-- Python `max(xs, key=...)`: scan left to right, replacing the current
best only on a strictly greater key (so the first maximal element wins). -/
def pyMaxByKey (best : CandidateReport) : List CandidateReport → CandidateReport
  | [] => best
  | r :: rest => pyMaxByKey (if reportKey best < reportKey r then r else best) rest

/-- The acceptance-and-selection step of `SynthesisEngine.run`: candidates
with violations are rejected; if none survive, `ManifestValidationError` is
raised; otherwise the key-max accepted report is selected for
materialisation. -/
def selectWinner (reports : List CandidateReport) : Except PyError CandidateReport :=
  match reports.filter (fun r => r.violations.isEmpty) with
  | [] => Except.error (.valueError "All synthesis manifests violated guard rails.")
  | r :: rest => Except.ok (pyMaxByKey r rest)

theorem pyMaxByKey_spec (l : List CandidateReport) : ∀ best : CandidateReport,
    (pyMaxByKey best l = best ∨ pyMaxByKey best l ∈ l) ∧
    (∀ r ∈ l, reportKey r ≤ reportKey (pyMaxByKey best l)) ∧
    reportKey best ≤ reportKey (pyMaxByKey best l) := by
  induction l with
  | nil => intro best; simp [pyMaxByKey]
  | cons r rest ih =>
      intro best
      simp only [pyMaxByKey]
      obtain ⟨hmem, hle, hbest⟩ := ih (if reportKey best < reportKey r then r else best)
      have hsplit : (if reportKey best < reportKey r then r else best) = r ∨
          (if reportKey best < reportKey r then r else best) = best := by
        by_cases h : reportKey best < reportKey r <;> simp [h]
      refine ⟨?_, ?_, ?_⟩
      · rcases hmem with h | h
        · rcases hsplit with h₂ | h₂
          · right
            rw [h, h₂]
            exact List.mem_cons_self r rest
          · left
            rw [h, h₂]
        · right
          exact List.mem_cons_of_mem r h
      · intro x hx
        rcases List.mem_cons.mp hx with hx₂ | hx₂
        · subst hx₂
          refine le_trans ?_ hbest
          rcases hsplit with h₂ | h₂ <;> rw [h₂]
          by_cases h : reportKey best < reportKey x
          · simp [h] at h₂
            rw [h₂]
          · exact le_of_not_lt h
        · exact hle x hx₂
      · refine le_trans ?_ hbest
        rcases hsplit with h₂ | h₂ <;> rw [h₂]
        by_cases h : reportKey best < reportKey r
        · exact le_of_lt h
        · simp [h] at h₂
          rw [h₂]

/-- C6 (amended): the score is the claim's clamped formula additionally
rounded to three decimals and capped at 1, and the materialised winner is an
accepted (zero-violation) candidate that no accepted candidate beats — none
has a higher score, and any accepted candidate with an equal score has an
index at least as large. -/
theorem synthesis_scoring_and_selection (v : Nat) (s : ℚ)
    (reports : List CandidateReport) (w : CandidateReport)
    (hw : selectWinner reports = Except.ok w) :
    _score_candidate v s =
      min 1 (round3 (min 1 (max 0 (1 - (1/5 : ℚ) * v)) + (3/10) * min 1 (max 0 s))) ∧
    w ∈ reports ∧ w.violations = [] ∧
    ∀ r ∈ reports, r.violations = [] →
      r.score < w.score ∨ (r.score = w.score ∧ w.index ≤ r.index) ∨ r = w := by
  have hscore : _score_candidate v s =
      min 1 (round3 (min 1 (max 0 (1 - (1/5 : ℚ) * v)) + (3/10) * min 1 (max 0 s))) := by
    have h1 : min 1 (max 0 (1 - (1/5 : ℚ) * v)) = max 0 (1 - (1/5 : ℚ) * v) := by
      apply min_eq_right
      apply max_le (by norm_num)
      have : (0 : ℚ) ≤ (1/5 : ℚ) * v := by positivity
      linarith
    have h2 : max 0 (min 1 s) = min 1 (max 0 s) := by
      rw [max_min_distrib_left]
      norm_num
    simp only [_score_candidate]
    rw [h1, h2]
    congr 2
    ring
  refine ⟨hscore, ?_⟩
  cases hf : reports.filter (fun r => r.violations.isEmpty) with
  | nil =>
      rw [selectWinner, hf] at hw
      exact absurd hw (by simp)
  | cons rh rt =>
      rw [selectWinner, hf] at hw
      simp only [Except.ok.injEq] at hw
      obtain ⟨hm, hle, hbest⟩ := pyMaxByKey_spec rt rh
      have hwF : w ∈ reports.filter (fun r => r.violations.isEmpty) := by
        rw [hf, ← hw]
        rcases hm with h | h
        · rw [h]; exact List.mem_cons_self rh rt
        · exact List.mem_cons_of_mem rh h
      have hwmem := List.mem_filter.mp hwF
      refine ⟨hwmem.1, by simpa using hwmem.2, ?_⟩
      intro r hr hviol
      have hrF : r ∈ reports.filter (fun r => r.violations.isEmpty) :=
        List.mem_filter.mpr ⟨hr, by simp [hviol]⟩
      rw [hf] at hrF
      have hrle : reportKey r ≤ reportKey w := by
        rw [← hw]
        rcases List.mem_cons.mp hrF with h | h
        · rw [h]; exact hbest
        · exact hle r h
      rw [reportKey, reportKey] at hrle
      have hlex := (Prod.Lex.le_iff _ _).mp hrle
      rcases hlex with h | ⟨h₁, h₂⟩
      · exact Or.inl h
      · refine Or.inr (Or.inl ⟨h₁, ?_⟩)
        have : (w.index : Int) ≤ (r.index : Int) := by
          have := neg_le_neg_iff.mp h₂
          exact this
        exact_mod_cast this

/-- Three synthesis candidates: one rejected, two accepted with tied
scores. -/
def c6Reports : List CandidateReport :=
  [⟨0, ["missing dependency"], 4/5, PyVal.none⟩,
   ⟨1, [], 1, PyVal.none⟩,
   ⟨2, [], 1, PyVal.none⟩]

/-- Witness for `synthesis_scoring_and_selection`: on the concrete tied
candidate list the winner is the accepted candidate with the lower index. -/
theorem synthesis_scoring_and_selection_witness :
    _score_candidate 2 (1/2) =
      min 1 (round3 (min 1 (max 0 (1 - (1/5 : ℚ) * 2)) + (3/10) * min 1 (max 0 (1/2)))) ∧
    (⟨1, [], 1, PyVal.none⟩ : CandidateReport) ∈ c6Reports ∧
    (⟨1, [], 1, PyVal.none⟩ : CandidateReport).violations = [] :=
  ⟨(synthesis_scoring_and_selection 2 (1/2) c6Reports ⟨1, [], 1, PyVal.none⟩ rfl).1,
   (synthesis_scoring_and_selection 2 (1/2) c6Reports ⟨1, [], 1, PyVal.none⟩ rfl).2.1,
   (synthesis_scoring_and_selection 2 (1/2) c6Reports ⟨1, [], 1, PyVal.none⟩ rfl).2.2.1⟩

/-! ## A model of `json.loads` (used by `SynthesisEngine._parse_manifest`)

A fuel-indexed recursive-descent parser for the JSON grammar `json.loads`
accepts: the fuel only bounds recursion depth (it starts above the input
length, which the grammar cannot exhaust), every committed branch otherwise
mirrors CPython's strict decoder, including its rejection of trailing
data. -/

/-- JSON whitespace skipping. -/
def jsonSkipWs (l : List Char) : List Char :=
  l.dropWhile (fun c => c = ' ' ∨ c = '\t' ∨ c = '\n' ∨ c = '\r')

/-- The value of a hex digit. -/
def hexVal? (c : Char) : Option Nat :=
  if c.isDigit then some (c.toNat - 48)
  else if 'a' ≤ c ∧ c ≤ 'f' then some (c.toNat - 87)
  else if 'A' ≤ c ∧ c ≤ 'F' then some (c.toNat - 55)
  else Option.none

/-- Four hex digits (a `\uXXXX` escape payload). -/
def hex4Val? : List Char → Option (Nat × List Char)
  | a :: b :: c :: d :: rest =>
      match hexVal? a, hexVal? b, hexVal? c, hexVal? d with
      | some x, some y, some z, some w => some (((x * 16 + y) * 16 + z) * 16 + w, rest)
      | _, _, _, _ => Option.none
  | _ => Option.none

/-- Parse the remainder of a JSON string literal (the opening quote already
consumed), returning the decoded characters and the rest of the input.
Surrogate pairs in `\u` escapes are recombined as CPython does. -/
def parseJString : Nat → List Char → Except String (List Char × List Char)
  | 0, _ => Except.error "fuel"
  | _, [] => Except.error "Unterminated string"
  | fuel + 1, c :: rest =>
      if c = '"' then Except.ok ([], rest)
      else if c = '\\' then
        match rest with
        | [] => Except.error "Unterminated string"
        | e :: rest₂ =>
            if e = 'u' then
              match hex4Val? rest₂ with
              | some (n, rest₃) =>
                  if 55296 ≤ n ∧ n ≤ 56319 then
                    match rest₃ with
                    | '\\' :: 'u' :: rest₄ =>
                        match hex4Val? rest₄ with
                        | some (m, rest₅) =>
                            if 56320 ≤ m ∧ m ≤ 57343 then
                              (parseJString fuel rest₅).map (fun r =>
                                (Char.ofNat (65536 + (n - 55296) * 1024 + (m - 56320)) :: r.1,
                                  r.2))
                            else
                              (parseJString fuel rest₃).map (fun r => (Char.ofNat n :: r.1, r.2))
                        | Option.none =>
                            (parseJString fuel rest₃).map (fun r => (Char.ofNat n :: r.1, r.2))
                    | _ => (parseJString fuel rest₃).map (fun r => (Char.ofNat n :: r.1, r.2))
                  else (parseJString fuel rest₃).map (fun r => (Char.ofNat n :: r.1, r.2))
              | Option.none => Except.error "Invalid \\uXXXX escape"
            else
              match (if e = '"' then some '"'
                else if e = '\\' then some '\\'
                else if e = '/' then some '/'
                else if e = 'b' then some (Char.ofNat 8)
                else if e = 'f' then some (Char.ofNat 12)
                else if e = 'n' then some '\n'
                else if e = 'r' then some '\r'
                else if e = 't' then some '\t'
                else Option.none) with
              | some d => (parseJString fuel rest₂).map (fun r => (d :: r.1, r.2))
              | Option.none => Except.error "Invalid escape"
      else if c.toNat < 32 then Except.error "Invalid control character"
      else (parseJString fuel rest).map (fun r => (c :: r.1, r.2))

/-- Parse a JSON number starting at the input (first char is `-` or a
digit): integers become `PyVal.int`, fraction/exponent forms become
`PyVal.float`. -/
def parseJNumber (l : List Char) : Except String (PyVal × List Char) :=
  let (negSign, l₁) := match l with
    | '-' :: rest => (true, rest)
    | _ => (false, l)
  let intDigits := l₁.takeWhile Char.isDigit
  let l₂ := l₁.dropWhile Char.isDigit
  if intDigits.isEmpty then Except.error "Expecting value"
  else
    let intVal := (digitsToNat? intDigits).getD 0
    let (fracDigits, l₃) := match l₂ with
      | '.' :: rest => (rest.takeWhile Char.isDigit, rest.dropWhile Char.isDigit)
      | _ => ([], l₂)
    if l₂.head? = some '.' ∧ fracDigits.isEmpty then Except.error "Expecting digits"
    else
      let hasExp := l₃.head? = some 'e' ∨ l₃.head? = some 'E'
      let (expNeg, l₄) :=
        if hasExp then
          match l₃.tail with
          | '-' :: rest => (true, rest)
          | '+' :: rest => (false, rest)
          | rest => (false, rest)
        else (false, l₃)
      let expDigits := if hasExp then l₄.takeWhile Char.isDigit else []
      let l₅ := if hasExp then l₄.dropWhile Char.isDigit else l₄
      if hasExp ∧ expDigits.isEmpty then Except.error "Expecting digits"
      else
        let mag : ℚ := (intVal : ℚ) +
          (((digitsToNat? fracDigits).getD 0 : ℚ) / ((10 : ℚ) ^ fracDigits.length))
        let expVal := (digitsToNat? expDigits).getD 0
        let scaled : ℚ :=
          if expNeg then mag / ((10 : ℚ) ^ expVal) else mag * ((10 : ℚ) ^ expVal)
        let value : ℚ := if negSign then -scaled else scaled
        if fracDigits.isEmpty ∧ ¬hasExp then
          Except.ok (.int (if negSign then -(intVal : Int) else (intVal : Int)), l₅)
        else Except.ok (.float value, l₅)

mutual

/-- Parse one JSON value (leading whitespace already skipped). -/
def parseJValue : Nat → List Char → Except String (PyVal × List Char)
  | 0, _ => Except.error "fuel"
  | _, [] => Except.error "Expecting value"
  | fuel + 1, c :: rest =>
      if c = '{' then parseJObject fuel (jsonSkipWs rest) []
      else if c = '[' then parseJArray fuel (jsonSkipWs rest) []
      else if c = '"' then
        (parseJString (fuel + 1) rest).map (fun r => (.str (String.mk r.1), r.2))
      else if c = 't' then
        match rest with
        | 'r' :: 'u' :: 'e' :: rest₂ => Except.ok (.bool true, rest₂)
        | _ => Except.error "Expecting value"
      else if c = 'f' then
        match rest with
        | 'a' :: 'l' :: 's' :: 'e' :: rest₂ => Except.ok (.bool false, rest₂)
        | _ => Except.error "Expecting value"
      else if c = 'n' then
        match rest with
        | 'u' :: 'l' :: 'l' :: rest₂ => Except.ok (.none, rest₂)
        | _ => Except.error "Expecting value"
      else if c = '-' ∨ c.isDigit then parseJNumber (c :: rest)
      else Except.error "Expecting value"

/-- Parse the members of a JSON object after `{` (duplicate keys overwrite
in place, as `dict` construction does). -/
def parseJObject : Nat → List Char → PyDict → Except String (PyVal × List Char)
  | 0, _, _ => Except.error "fuel"
  | _ + 1, [], _ => Except.error "Unterminated object"
  | fuel + 1, c :: rest, acc =>
      if c = '}' ∧ acc.isEmpty then Except.ok (.dict [], rest)
      else if c = '"' then
        match parseJString (fuel + 1) rest with
        | Except.error e => Except.error e
        | Except.ok (keyChars, rest₂) =>
            match jsonSkipWs rest₂ with
            | ':' :: rest₃ =>
                match parseJValue fuel (jsonSkipWs rest₃) with
                | Except.error e => Except.error e
                | Except.ok (v, rest₄) =>
                    let acc₂ := PyDict.set acc (String.mk keyChars) v
                    match jsonSkipWs rest₄ with
                    | ',' :: rest₅ =>
                        match jsonSkipWs rest₅ with
                        | '"' :: rest₆ => parseJObject fuel ('"' :: rest₆) acc₂
                        | _ => Except.error "Expecting property name"
                    | '}' :: rest₅ => Except.ok (.dict acc₂, rest₅)
                    | _ => Except.error "Expecting delimiter"
            | _ => Except.error "Expecting colon"
      else Except.error "Expecting property name"

/-- Parse the elements of a JSON array after `[`. -/
def parseJArray : Nat → List Char → List PyVal → Except String (PyVal × List Char)
  | 0, _, _ => Except.error "fuel"
  | _ + 1, [], _ => Except.error "Unterminated array"
  | fuel + 1, c :: rest, acc =>
      if c = ']' ∧ acc.isEmpty then Except.ok (.list [], rest)
      else
        match parseJValue fuel (c :: rest) with
        | Except.error e => Except.error e
        | Except.ok (v, rest₂) =>
            match jsonSkipWs rest₂ with
            | ',' :: rest₃ => parseJArray fuel (jsonSkipWs rest₃) (acc ++ [v])
            | ']' :: rest₃ => Except.ok (.list (acc ++ [v]), rest₃)
            | _ => Except.error "Expecting delimiter"

end

/-- `json.loads`: parse one value, reject trailing non-whitespace. -/
def jsonLoads (s : String) : Except String PyVal :=
  match parseJValue (s.data.length + 1) (jsonSkipWs s.data) with
  | Except.ok (v, rest) =>
      if (jsonSkipWs rest).isEmpty then Except.ok v else Except.error "Extra data"
  | Except.error e => Except.error e

/-! ## Manifest parsing and the fallback manifest
(`agents/generator/synthesis.py`) -/

/-- `SynthesisEngine._fallback_manifest`: the deterministic baked-in minimal
SQLi bundle.  `requirement` fills the stack and vuln slots and `sid` is the
engine's scenario id. -/
def _fallback_manifest (requirement : PyDict) (sid : String) : PyVal :=
  let stack := pyOr (PyDict.getD requirement "framework" .none)
    (PyDict.getD requirement "language" (.str "python"))
  PyVal.dict
    [("intent", .str ((PyDict.getD requirement "vuln_id" (.str "CWE-89")).pyStr ++
        " fallback synthesis")),
     ("pattern_tags", .list [.str "sqli", .str "string-concat"]),
     ("files", .list
       [.dict
          [("path", .str "Dockerfile"),
           ("description", .str "Build Python image and seed SQLite DB."),
           ("content", .str "FROM python:3.11-slim\nWORKDIR /app\nCOPY . /app\nRUN pip install -r requirements.txt && sqlite3 app.db < schema.sql && sqlite3 app.db < seed_data.sql\nCMD [\"python\", \"app.py\"]\n")],
        .dict
          [("path", .str "requirements.txt"),
           ("description", .str "Pinned deps for SBOM."),
           ("content", .str "Flask==2.3.3\nJinja2==3.1.4\n")],
        .dict
          [("path", .str "app.py"),
           ("description", .str (stack.pyStr ++ " vulnerable endpoint.")),
           ("content", .str "from flask import Flask, request\nimport sqlite3\napp = Flask(__name__)\n\n@app.route('/login')\ndef login():\n    username = request.args.get('username', '')\n    password = request.args.get('password', '')\n    query = f\"SELECT username FROM users WHERE username = '\x7busername\x7d' AND password = '\x7bpassword\x7d'\"\n    conn = sqlite3.connect('app.db')\n    cursor = conn.cursor()\n    rows = cursor.execute(query).fetchall()\n    conn.close()\n    if rows:\n        return 'SQLi SUCCESS'\n    return 'Invalid credentials'\n\nif __name__ == '__main__':\n    app.run(host='0.0.0.0', port=8000)\n")],
        .dict
          [("path", .str "schema.sql"),
           ("description", .str "User table schema."),
           ("content", .str "CREATE TABLE IF NOT EXISTS users (username TEXT, password TEXT);\n")],
        .dict
          [("path", .str "seed_data.sql"),
           ("description", .str "Baseline records."),
           ("content", .str "INSERT INTO users VALUES ('admin', 'admin');\n")],
        .dict
          [("path", .str "poc.py"),
           ("description", .str "Simple UNION-based exploit."),
           ("content", .str "import requests\npayload = \"admin' OR '1'='1\"\nresp = requests.get('http://127.0.0.1:8000/login', params=\x7b'username': payload, 'password': 'x'\x7d)\nprint(resp.text)\n")],
        .dict
          [("path", .str "README.md"),
           ("description", .str "Usage instructions."),
           ("content", .str "# CWE-89 fallback bundle\n```bash\ndocker build -t cwe-89 .\ndocker run -p 8000:8000 cwe-89\npython poc.py\n```\n")]]),
     ("deps", .list [.str "Flask==2.3.3", .str "requests==2.32.2"]),
     ("build", .dict [("command", .str "pip install -r requirements.txt")]),
     ("run", .dict [("command", .str "python app.py"), ("port", .int 8000)]),
     ("poc", .dict [("cmd", .str "python poc.py"),
       ("success_signature", .str "SQLi SUCCESS")]),
     ("notes", .str ("Fallback manifest auto-generated because the LLM response was not valid JSON. " ++
        "The layout still passes guard rails for deterministic testing.")),
     ("metadata", .dict [("sid", .str sid), ("stack", stack),
       ("cwe", PyDict.getD requirement "vuln_id" (.str "CWE-89"))])]

/-- `SynthesisEngine._parse_manifest`: strict `json.loads`; when that raises,
retry once on the substring from the first `{` to the last `}` (`raw.find` /
`raw.rfind`); in every remaining case substitute the fallback manifest.  A
strict parse that yields a non-dict value falls through to the fallback
without attempting extraction, mirroring the `try/except` flow. -/
def _parse_manifest (raw : String) (fallback : PyVal) : PyVal :=
  match jsonLoads raw with
  | Except.ok v => if v.isDict then v else fallback
  | Except.error _ =>
      let cs := raw.data
      match cs.findIdx? (fun c => c = '{'), cs.reverse.findIdx? (fun c => c = '}') with
      | some start, some revStop =>
          let stop := cs.length - 1 - revStop
          if stop > start then
            match jsonLoads (String.mk ((cs.drop start).take (stop + 1 - start))) with
            | Except.ok v => if v.isDict then v else fallback
            | Except.error _ => fallback
          else fallback
      | _, _ => fallback

/-- Scan from a `{` and return everything up to its matching balanced `}`,
the claim's "first balanced" object. -/
def balancedScan : List Char → Nat → List Char → Option (List Char)
  | [], _, _ => Option.none
  | c :: rest, depth, acc =>
      if c = '{' then balancedScan rest (depth + 1) (acc ++ [c])
      else if c = '}' then
        if depth = 1 then some (acc ++ [c])
        else balancedScan rest (depth - 1) (acc ++ [c])
      else balancedScan rest depth (acc ++ [c])

/-- The first balanced `{…}` block of the text, when one exists. -/
def firstBalanced (cs : List Char) : Option (List Char) :=
  balancedScan (cs.dropWhile (fun c => c ≠ '{')) 0 []

/-- The parse step exactly as C7 words it: attempt strict JSON; on failure
extract the first balanced `{…}` object and parse that; if still invalid,
substitute the fallback manifest. -/
def parseManifestClaim (raw : String) (fallback : PyVal) : PyVal :=
  match jsonLoads raw with
  | Except.ok v => if v.isDict then v else fallback
  | Except.error _ =>
      match firstBalanced raw.data with
      | some snippet =>
          match jsonLoads (String.mk snippet) with
          | Except.ok v => if v.isDict then v else fallback
          | Except.error _ => fallback
      | Option.none => fallback

/-- C7 counterexample: on a response holding two JSON objects, the claimed
first-balanced-object extraction yields the first object, but the code takes
the first-`{`-to-last-`}` substring, fails to parse it, and substitutes the
fallback manifest instead. -/
theorem parse_manifest_counterexample :
    parseManifestClaim "x \x7b\"a\": 1\x7d y \x7b\"b\": 2\x7d"
        (_fallback_manifest [] "sid-0") = PyVal.dict [("a", PyVal.int 1)] ∧
    _parse_manifest "x \x7b\"a\": 1\x7d y \x7b\"b\": 2\x7d"
        (_fallback_manifest [] "sid-0") = _fallback_manifest [] "sid-0" ∧
    _parse_manifest "x \x7b\"a\": 1\x7d y \x7b\"b\": 2\x7d"
        (_fallback_manifest [] "sid-0") ≠
      parseManifestClaim "x \x7b\"a\": 1\x7d y \x7b\"b\": 2\x7d"
        (_fallback_manifest [] "sid-0") := by
  refine ⟨rfl, rfl, ?_⟩
  decide

/-- C7 (amended): a strict parse that yields a dict is returned as is, and
manifest parsing always yields a dict — on a JSON decode error the retry
parses the first-`{`-to-last-`}` substring (not the first balanced object),
and any remaining case substitutes the deterministic fallback manifest. -/
theorem parse_manifest_amended (raw : String) (requirement : PyDict) (sid : String)
    (v : PyVal) (hok : jsonLoads raw = Except.ok v) (hdict : v.isDict = true) :
    _parse_manifest raw (_fallback_manifest requirement sid) = v ∧
    ∀ s : String, (_parse_manifest s (_fallback_manifest requirement sid)).isDict = true := by
  have hfb : (_fallback_manifest requirement sid).isDict = true := rfl
  constructor
  · rw [_parse_manifest, hok]
    simp [hdict]
  · intro s
    rw [_parse_manifest]
    split
    · split
      · assumption
      · exact hfb
    · simp only []
      split
      · split
        · split
          · split
            · assumption
            · exact hfb
          · exact hfb
        · exact hfb
      · exact hfb

/-- Witness for `parse_manifest_amended`: a raw response that is exactly one
JSON object parses to itself. -/
theorem parse_manifest_amended_witness :
    _parse_manifest "\x7b\"a\": 1\x7d" (_fallback_manifest [] "sid-0") =
      PyVal.dict [("a", PyVal.int 1)] :=
  (parse_manifest_amended "\x7b\"a\": 1\x7d" [] "sid-0"
    (PyVal.dict [("a", PyVal.int 1)]) rfl rfl).1

/-! ## Assertion DSL and LLM-assisted verdict
(`evals/assertions.py`, `evals/poc_verifier/llm_assisted.py`)

The regex engine is abstracted: `found pat log` stands for
`re.search(pat, log) is not None` and `extract pat log` for
`_extract_numeric(re.search(pat, log))`, the first numeric value the search
produces.  Everything around those two calls is translated from the
source. -/

/-- One `AssertionOutcome`. -/
structure AssertionOutcome where
  success : Bool
  op : String
  details : String
deriving Repr, DecidableEq

/-- Model of `float(value)` on the numeric values assertion entries carry
(`float()` of a malformed string raises in Python and is not modelled — the
sources only reach it with JSON numbers). -/
def pyFloatD (v : PyVal) : ℚ :=
  match v with
  | .int n => (n : ℚ)
  | .float q => q
  | .bool b => if b then 1 else 0
  | .str s => (parseDecimal? s).getD 0
  | _ => 0

/-- `_assert_regex_contains` (flags folded into the abstract searcher). -/
def _assert_regex_contains (found : String → String → Bool) (log : String)
    (entry : PyDict) : Bool × String :=
  match PyDict.get entry "pattern" with
  | some (.str p) =>
      if p = "" then (false, "missing regex pattern")
      else (found p log,
        "pattern=" ++ (if found p log then "found" else "missing") ++ ": " ++ p)
  | _ => (false, "missing regex pattern")

/-- The needle both containment assertions read:
`entry.get("string") or entry.get("pattern")`, a non-empty string. -/
def assertionNeedle (entry : PyDict) : Option String :=
  match pyOr (PyDict.getD entry "string" .none) (PyDict.getD entry "pattern" .none) with
  | .str s => if s = "" then Option.none else some s
  | _ => Option.none

/-- Helper scan for substring membership. -/
def strContainsGo (needle : List Char) : List Char → Bool
  | [] => needle.isEmpty
  | c :: rest => needle.isPrefixOf (c :: rest) || strContainsGo needle rest

/-- Substring membership (`needle in log_text`). -/
def strContains (log needle : String) : Bool :=
  strContainsGo needle.data log.data

/-- `_assert_contains`. -/
def _assert_contains (log : String) (entry : PyDict) : Bool × String :=
  match assertionNeedle entry with
  | some needle =>
      (strContains log needle,
        "substring=" ++ (if strContains log needle then "found" else "missing"))
  | Option.none => (false, "missing substring")

/-- `_assert_not_contains`. -/
def _assert_not_contains (log : String) (entry : PyDict) : Bool × String :=
  match assertionNeedle entry with
  | some needle =>
      (!strContains log needle,
        "substring=" ++ (if !strContains log needle then "absent" else "present"))
  | Option.none => (false, "missing substring")

/-- `_assert_number_delta`: extract the first numeric value matched by each
pattern, compare `after − before` with the comparator against `delta`. -/
def _assert_number_delta (extract : String → String → Option ℚ) (log : String)
    (entry : PyDict) : Bool × String :=
  match PyDict.get entry "pattern_before", PyDict.get entry "pattern_after" with
  | some (.str pb), some (.str pa) =>
      match extract pb log, extract pa log with
      | some before, some after =>
          let delta := after - before
          let comparator := pyLower (PyVal.pyStr
            (pyOr (PyDict.getD entry "comparator" .none) (.str "eq")))
          let target := pyFloatD (pyOr (PyDict.getD entry "delta" .none) (.float 0))
          let success :=
            if comparator = "lt" then decide (delta < target)
            else if comparator = "gt" then decide (delta > target)
            else decide (delta = target)
          (success, "delta=" ++ toString delta ++ " comparator=" ++ comparator ++
            " target=" ++ toString target)
      | _, _ => (false, "unable to parse numeric values")
  | _, _ => (false, "number_delta requires pattern_before/pattern_after")

/-- `run_assertions`: run each dict entry through its handler; unknown ops
fail; the overall flag is the conjunction of all outcomes. -/
def run_assertions (found : String → String → Bool) (extract : String → String → Option ℚ)
    (log : String) (program : List PyVal) : Bool × List AssertionOutcome :=
  if program.isEmpty then (true, [])
  else
    program.foldl
      (fun acc entry =>
        match entry with
        | .dict entryD =>
            let op := pyLower (PyVal.pyStr (pyOr (PyDict.getD entryD "op" .none) (.str "")))
            if op = "regex_contains" then
              let r := _assert_regex_contains found log entryD
              (acc.1 && r.1, acc.2 ++ [⟨r.1, op, r.2⟩])
            else if op = "contains" then
              let r := _assert_contains log entryD
              (acc.1 && r.1, acc.2 ++ [⟨r.1, op, r.2⟩])
            else if op = "not_contains" then
              let r := _assert_not_contains log entryD
              (acc.1 && r.1, acc.2 ++ [⟨r.1, op, r.2⟩])
            else if op = "number_delta" then
              let r := _assert_number_delta extract log entryD
              (acc.1 && r.1, acc.2 ++ [⟨r.1, op, r.2⟩])
            else
              (false, acc.2 ++ [⟨false, if op = "" then "unknown" else op,
                "unsupported assertion"⟩])
        | _ => acc)
      (true, [])

/-- The `proposed_assertions` list `llm_assisted_verify` feeds the runner:
the parsed field when it is a list, else `[]`. -/
def llmProgram (parsed : PyDict) : List PyVal :=
  match PyDict.get parsed "proposed_assertions" with
  | some (.list xs) => xs
  | _ => []

/-- The verdict record the LLM-assisted verifier returns (the fields C8
speaks about; model/digest bookkeeping omitted). -/
structure LlmVerdict where
  verify_pass : Bool
  evidence : String
  status : String
  assertions_checked : Nat
deriving Repr, DecidableEq

/-- The post-parse fragment of `llm_assisted_verify`: run the proposed
assertions over the full log text and combine them with the LLM's own
`verify_pass`; the returned verdict is always `evaluated-llm`. -/
def llmVerdict (found : String → String → Bool) (extract : String → String → Option ℚ)
    (parsed : PyDict) (logText : String) : LlmVerdict :=
  let r := run_assertions found extract logText (llmProgram parsed)
  let verifyPass := (PyDict.getD parsed "verify_pass" .none).truthy && r.1
  let rationaleLines :=
    match PyDict.get parsed "rationale" with
    | some (.str s) => if pyStrip s ≠ "" then [pyStrip s] else []
    | _ => []
  let lines := rationaleLines ++ r.2.map (fun o =>
    "[" ++ (if o.success then "PASS" else "FAIL") ++ "::" ++ o.op ++ "] " ++ o.details)
  let lines :=
    if lines.isEmpty then
      match PyDict.get parsed "extracted_evidence" with
      | some (.list xs) => xs.map PyVal.pyStr
      | _ => lines
    else lines
  let evidence :=
    let e := pyStrip (String.intercalate "\n" lines)
    if e = "" then "LLM-assisted verification" else e
  { verify_pass := verifyPass
    evidence := evidence
    status := "evaluated-llm"
    assertions_checked := r.2.length }

/-- The comparator semantics exactly as the spec words them:
`comparator∈{lt,gt,eq}` compares `after − before` to `delta`. -/
def numberDeltaSpec (comparator : String) (before after target : ℚ) : Bool :=
  if comparator = "lt" then decide (after - before < target)
  else if comparator = "gt" then decide (after - before > target)
  else decide (after - before = target)

/-- C8: an LLM-assisted verdict has status `evaluated-llm` and passes iff
the LLM's own `verify_pass` is truthy and every proposed assertion passes;
and a `number_delta` assertion whose two patterns both extract a numeric
value succeeds exactly when `after − before` satisfies the comparator
against `delta`. -/
theorem llm_verdict_and_number_delta
    (found : String → String → Bool) (extract : String → String → Option ℚ)
    (parsed : PyDict) (logText : String) (entry : PyDict) (pb pa : String) (b a : ℚ)
    (hpb : PyDict.get entry "pattern_before" = some (.str pb))
    (hpa : PyDict.get entry "pattern_after" = some (.str pa))
    (hb : extract pb logText = some b)
    (ha : extract pa logText = some a) :
    (llmVerdict found extract parsed logText).status = "evaluated-llm" ∧
    (llmVerdict found extract parsed logText).verify_pass =
      ((PyDict.getD parsed "verify_pass" .none).truthy &&
        (run_assertions found extract logText (llmProgram parsed)).1) ∧
    (_assert_number_delta extract logText entry).1 =
      numberDeltaSpec
        (pyLower (PyVal.pyStr (pyOr (PyDict.getD entry "comparator" .none) (.str "eq"))))
        b a (pyFloatD (pyOr (PyDict.getD entry "delta" .none) (.float 0))) := by
  refine ⟨rfl, rfl, ?_⟩
  rw [_assert_number_delta, hpb, hpa]
  simp only []
  rw [hb, ha]
  rfl

/-- The digits at the head of the text, as a rational. -/
def digitsAfter (l : List Char) : Option ℚ :=
  let ds := l.takeWhile Char.isDigit
  if ds.isEmpty then Option.none else (digitsToNat? ds).map (fun n => (n : ℚ))

/-- Helper scan for `litNumExtract`. -/
def litNumExtractGo (lit : List Char) : List Char → Option ℚ
  | [] => Option.none
  | c :: rest =>
      if lit.isPrefixOf (c :: rest) then digitsAfter ((c :: rest).drop lit.length)
      else litNumExtractGo lit rest

/-- A concrete instance of the search-extract oracle: the digits right after
the first occurrence of the literal prefix, modelling
`_extract_numeric(re.search(lit + digit-group, text))`. -/
def litNumExtract (lit text : String) : Option ℚ :=
  litNumExtractGo lit.data text.data

/-- The claim's example `number_delta` assertion entry. -/
def c8Entry : PyDict :=
  [("op", .str "number_delta"), ("pattern_before", .str "before rows: "),
   ("pattern_after", .str "after rows: "), ("comparator", .str "gt"),
   ("delta", .int 10)]

/-- Witness for `llm_verdict_and_number_delta`: a concrete searcher reading
the digits after a literal prefix, on a log whose row counts grow from 1 to
42 with comparator `gt` and delta 10. -/
theorem llm_verdict_and_number_delta_witness :
    (llmVerdict (fun _ _ => true) litNumExtract
        [("verify_pass", PyVal.bool true),
         ("proposed_assertions", PyVal.list [PyVal.dict c8Entry])]
        "before rows: 1\nafter rows: 42").status = "evaluated-llm" ∧
    (llmVerdict (fun _ _ => true) litNumExtract
        [("verify_pass", PyVal.bool true),
         ("proposed_assertions", PyVal.list [PyVal.dict c8Entry])]
        "before rows: 1\nafter rows: 42").verify_pass =
      ((PyDict.getD [("verify_pass", PyVal.bool true),
          ("proposed_assertions", PyVal.list [PyVal.dict c8Entry])] "verify_pass" .none).truthy &&
        (run_assertions (fun _ _ => true) litNumExtract "before rows: 1\nafter rows: 42"
          (llmProgram [("verify_pass", PyVal.bool true),
            ("proposed_assertions", PyVal.list [PyVal.dict c8Entry])])).1) ∧
    (_assert_number_delta litNumExtract "before rows: 1\nafter rows: 42" c8Entry).1 =
      numberDeltaSpec
        (pyLower (PyVal.pyStr (pyOr (PyDict.getD c8Entry "comparator" .none) (.str "eq"))))
        1 42 (pyFloatD (pyOr (PyDict.getD c8Entry "delta" .none) (.float 0))) :=
  llm_verdict_and_number_delta (fun _ _ => true) litNumExtract
    [("verify_pass", PyVal.bool true),
     ("proposed_assertions", PyVal.list [PyVal.dict c8Entry])]
    "before rows: 1\nafter rows: 42" c8Entry "before rows: " "after rows: " 1 42
    rfl rfl rfl rfl

/-! ## Overall evaluation verdict (`evals/poc_verifier/main.py`) -/

/-- `_overall_pass`: a non-empty result list where every entry is
`evaluated`/`evaluated-llm` with a truthy `verify_pass`. -/
def _overall_pass (results : List PyDict) : Bool :=
  if results.isEmpty then false
  else results.all (fun entry =>
    decide (PyDict.getD entry "status" .none ∈
      [PyVal.str "evaluated", PyVal.str "evaluated-llm"]) &&
    (PyDict.getD entry "verify_pass" .none).truthy)

/-- C10: `overall_pass` is true exactly when the results list is non-empty
and every entry has status `evaluated` or `evaluated-llm` with a truthy
`verify_pass` — so any skipped / missing-log / unsupported / errored entry,
or any failed verification, forces it to false. -/
theorem overall_pass_iff (results : List PyDict) :
    _overall_pass results = true ↔
      results ≠ [] ∧ ∀ entry ∈ results,
        (PyDict.getD entry "status" .none = .str "evaluated" ∨
          PyDict.getD entry "status" .none = .str "evaluated-llm") ∧
        (PyDict.getD entry "verify_pass" .none).truthy = true := by
  unfold _overall_pass
  by_cases h : results.isEmpty
  · simp [h, List.isEmpty_iff.mp h]
  · rw [if_neg h]
    rw [List.all_eq_true]
    constructor
    · intro hall
      refine ⟨by simpa [List.isEmpty_iff] using h, ?_⟩
      intro entry hentry
      have := hall entry hentry
      simp only [Bool.and_eq_true, decide_eq_true_eq, List.mem_cons,
        List.mem_singleton, List.not_mem_nil, or_false] at this
      exact ⟨this.1, this.2⟩
    · intro ⟨_, hall⟩ entry hentry
      have := hall entry hentry
      simp only [Bool.and_eq_true, decide_eq_true_eq, List.mem_cons,
        List.mem_singleton, List.not_mem_nil, or_false]
      exact ⟨this.1, this.2⟩

end VulDocker
